import Mathlib

/-!
Verification of the core trading-agent pipeline: data model, Risk Guardrails,
Psychological State Layer, Decision Engine, Signal Layer (detectors, decay),
and the Paper Trading Simulator, shallowly embedded from the TypeScript
sources.  Numbers are modelled as rationals (JS numbers at the precision the
claims require), JS `Map`s as insertion-ordered association lists, JS falsy
checks (`!x`, `x || d`) explicitly, and thrown exceptions as `Except`.
-/

set_option maxRecDepth 4000

/-! ## Core enums (src/types) -/

/-- `EventType` from src/types (event schema). -/
inductive EventType where
  | price_update | price_change | volume_spike | liquidity_change
  | new_token | token_revival
  | mention_spike | sentiment_shift | influencer_post
  | heartbeat | errorEvent
deriving DecidableEq, Repr

/-- `SignalType` from src/types. -/
inductive SignalType where
  | early_momentum | volume_surge | liquidity_pull | price_exhaustion
  | dormancy | hype_burst | narrative_shift | community_fade
deriving DecidableEq, Repr

/-- `Mood` from src/types/state.ts. -/
inductive Mood where
  | cautious | confident | aggressive | suspicious
  | regretful | fatigued | obsessed | neutral
deriving DecidableEq, Repr

/-- `OperationalMode` from src/types/state.ts. -/
inductive OperationalMode where
  | active | observing | safe_mode | paused | frozen
deriving DecidableEq, Repr

/-- `IntentType` from src/types (intent schema). -/
inductive IntentType where
  | watch | enter | add | reduce | exit | freeze | wait
deriving DecidableEq, Repr

/-- `TradeStatus` from src/types (trade schema); `partialFill` renders the
source's `PARTIAL` member (renamed only because of a Lean keyword). -/
inductive TradeStatus where
  | pending | executing | filled | partialFill | failed | cancelled
deriving DecidableEq, Repr

/-- `TradeDirection` from src/types (trade schema). -/
inductive TradeDirection where
  | buy | sell
deriving DecidableEq, Repr

/-! ## Core records -/

/-- The `data` payload of an `Event`: the two keys the detectors read
(`multiplier`, `changePercent`); absent keys are `none`. -/
structure EventData where
  multiplier : Option ℚ := none
  changePercent : Option ℚ := none
deriving DecidableEq, Repr

/-- `Event` from src/types (event schema); `source`/`raw` are never read by
the signal engine and are omitted. -/
structure Event where
  id : String
  timestamp : ℤ
  type : EventType
  tokenAddress : Option String := none
  tokenSymbol : Option String := none
  data : EventData := {}
deriving DecidableEq, Repr

/-- `DetectorResult` from src/modules/signals/detectors.ts. -/
structure DetectorResult where
  type : SignalType
  confidence : ℚ
  strength : ℚ
  urgency : ℚ
  description : String
  tokenAddress : Option String := none
  tokenSymbol : Option String := none
  sourceEventIds : List String
deriving DecidableEq, Repr

/-- `Signal` from src/types (signal schema). -/
structure Signal where
  id : String
  timestamp : ℤ
  type : SignalType
  tokenAddress : Option String := none
  tokenSymbol : Option String := none
  confidence : ℚ
  strength : ℚ
  urgency : ℚ
  description : String
  sourceEventIds : List String
  expiresAt : ℤ
  decayRate : ℚ
deriving DecidableEq, Repr

/-- `AgentState` from src/types/state.ts; `tokenConvictions : Map<string,
number>` is modelled (by value) as an association list. -/
structure AgentState where
  timestamp : ℤ
  confidence : ℚ
  suspicion : ℚ
  conviction : ℚ
  fatigue : ℚ
  aggression : ℚ
  regret : ℚ
  primaryMood : Mood
  secondaryMood : Option Mood := none
  riskAppetite : ℚ
  mode : OperationalMode
  recentWinStreak : ℕ
  recentLossStreak : ℕ
  lastTradeTimestamp : Option ℤ := none
  daysSinceLastTrade : ℚ
  tokenConvictions : List (String × ℚ)
  internalMonologue : Option String := none
deriving DecidableEq, Repr

/-- The `stateSnapshot` sub-record of `Intent`. -/
structure IntentStateSnapshot where
  mood : Mood
  confidence : ℚ
  riskAppetite : ℚ
deriving DecidableEq, Repr

/-- `Intent` from src/types (intent schema). -/
structure Intent where
  id : String
  timestamp : ℤ
  type : IntentType
  tokenAddress : Option String := none
  tokenSymbol : Option String := none
  sizePct : Option ℚ := none
  primaryReason : String
  supportingSignals : List String
  stateSnapshot : IntentStateSnapshot
  alternatives : List String
  probabilityThreshold : ℚ
  riskApproved : Option Bool := none
  riskBlockReason : Option String := none
deriving DecidableEq, Repr

/-- `Position` from src/types (trade schema). -/
structure Position where
  tokenAddress : String
  tokenSymbol : String
  amount : ℚ
  averageEntryPrice : ℚ
  currentPrice : Option ℚ := none
  unrealizedPnL : Option ℚ := none
  unrealizedPnLPct : Option ℚ := none
  openedAt : ℤ
  lastUpdatedAt : ℤ
  entryIntentId : String
  tradeIds : List String
deriving DecidableEq, Repr

/-- `TradeResult` from src/types (trade schema). -/
structure TradeResult where
  id : String
  timestamp : ℤ
  intentId : String
  tokenAddress : String
  tokenSymbol : String
  direction : TradeDirection
  status : TradeStatus
  requestedAmount : ℚ
  filledAmount : Option ℚ := none
  price : Option ℚ := none
  slippage : Option ℚ := none
  txSignature : Option String := none
  error : Option String := none
  triggeredBySignals : List String
  agentMoodAtTime : Mood
deriving DecidableEq, Repr

/-! ## JS semantics helpers -/

/-- JS truthiness of an optional string (`undefined` and `""` are falsy). -/
def strTruthy : Option String → Bool
  | none => false
  | some s => s ≠ ""

/-- JS `x || d` for an optional number (`undefined` and `0` are falsy). -/
def numOr (x : Option ℚ) (d : ℚ) : ℚ :=
  match x with
  | none => d
  | some v => if v = 0 then d else v

/-- JS `s || d` for an optional string key (`undefined` and `""` are falsy). -/
def strOr (x : Option String) (d : String) : String :=
  match x with
  | none => d
  | some s => if s = "" then d else s

/-- `pos.currentPrice || pos.averageEntryPrice`, the valuation price used by
`calculateExposure` and `getTotalValue`. -/
def priceOrAvg (p : Position) : ℚ :=
  numOr p.currentPrice p.averageEntryPrice

/-! ## Risk Guardrails (src/modules/risk/index.ts) -/

/-- `RiskConfig`; `dailyTradeLimit` is the optional field (JS falsy `0` or
`undefined` disables the check). -/
structure RiskConfig where
  maxPositionSizePct : ℚ
  maxDailyLossPct : ℚ
  maxTotalExposurePct : ℚ
  minCapitalReserve : ℚ
  dailyTradeLimit : Option ℕ := none
deriving DecidableEq, Repr

/-- `RiskCheckResult`. -/
structure RiskCheckResult where
  approved : Bool
  reason : Option String := none
  adjustedSizePct : Option ℚ := none
deriving DecidableEq, Repr

/-- The mutable fields of class `RiskGuardrails` plus its config. -/
structure RiskGuardrails where
  config : RiskConfig
  dailyTrades : List TradeResult := []
  dailyPnL : ℚ := 0
deriving DecidableEq, Repr

namespace RiskGuardrails

/-- `new RiskGuardrails(config)`: fresh ledger, `dailyPnL = 0`. -/
def mkFresh (config : RiskConfig) : RiskGuardrails :=
  { config := config, dailyTrades := [], dailyPnL := 0 }

/-- `this.config.dailyTradeLimit && this.dailyTrades.length >= limit`. -/
def dailyLimitHit (rg : RiskGuardrails) : Bool :=
  match rg.config.dailyTradeLimit with
  | none => false
  | some l => l ≠ 0 ∧ rg.dailyTrades.length ≥ l

/-- `shouldEnterSafeMode()`: `|dailyPnL| >= maxDailyLossPct`. -/
def shouldEnterSafeMode (rg : RiskGuardrails) : Bool :=
  |rg.dailyPnL| ≥ rg.config.maxDailyLossPct

/-- `calculateExposure(positions, capital)`. -/
def calculateExposure (positions : List Position) (capital : ℚ) : ℚ :=
  let totalValue := (positions.map (fun pos => pos.amount * priceOrAvg pos)).sum
  (totalValue / capital) * 100

/-- `checkIntent(intent, positions, capital)`, translated check by check;
the ENTER/ADD size block can return early (reject on missing size, approve
with clamp on oversize) before the exposure check is reached. -/
def checkIntent (rg : RiskGuardrails) (intent : Intent)
    (positions : List Position) (capital : ℚ) : RiskCheckResult :=
  if intent.type = .wait ∨ intent.type = .watch then
    { approved := true }
  else if rg.dailyLimitHit then
    { approved := false, reason := some "Daily trade limit reached" }
  else if rg.shouldEnterSafeMode then
    { approved := false, reason := some "Safe mode active due to losses" }
  else
    let sizeBlock : Option RiskCheckResult :=
      if intent.type = .enter ∨ intent.type = .add then
        match intent.sizePct with
        | none => some { approved := false, reason := some "No size specified" }
        | some s =>
          if s = 0 then
            some { approved := false, reason := some "No size specified" }
          else if s > rg.config.maxPositionSizePct then
            some { approved := true,
                   adjustedSizePct := some rg.config.maxPositionSizePct,
                   reason := some "Size reduced" }
          else none
      else none
    match sizeBlock with
    | some r => r
    | none =>
      let currentExposure := calculateExposure positions capital
      if intent.type = .enter ∧ currentExposure ≥ rg.config.maxTotalExposurePct then
        { approved := false, reason := some "Maximum exposure reached" }
      else
        { approved := true }

/-- `recordTrade(trade)`: pushes onto the ledger; `dailyPnL` is untouched
(the source carries a TODO instead of a PnL update). -/
def recordTrade (rg : RiskGuardrails) (trade : TradeResult) : RiskGuardrails :=
  { rg with dailyTrades := rg.dailyTrades ++ [trade] }

/-- `resetDaily()`. -/
def resetDaily (rg : RiskGuardrails) : RiskGuardrails :=
  { rg with dailyTrades := [], dailyPnL := 0 }

end RiskGuardrails

/-- The public operations of `RiskGuardrails`, for reasoning over arbitrary
call sequences. `check` and `querySafeMode` are read-only in the source. -/
inductive RiskOp where
  | record (t : TradeResult)
  | check (i : Intent) (ps : List Position) (cap : ℚ)
  | querySafeMode
  | reset
deriving Repr

/-- State transition of one public call on `RiskGuardrails`. -/
def RiskOp.apply (rg : RiskGuardrails) : RiskOp → RiskGuardrails
  | .record t => rg.recordTrade t
  | .check _ _ _ => rg
  | .querySafeMode => rg
  | .reset => rg.resetDaily

/-- State after a sequence of public calls. -/
def RiskOp.applyAll (rg : RiskGuardrails) (ops : List RiskOp) : RiskGuardrails :=
  ops.foldl RiskOp.apply rg

/-! ## State Layer (src/modules/state/index.ts) -/

/-- `StateConfig`. -/
structure StateConfig where
  baseRiskAppetite : ℚ
  moodUpdateIntervalMs : ℤ
deriving DecidableEq, Repr

namespace StateLayer

/-- The neutral state installed by the `StateLayer` constructor. -/
def initialState (config : StateConfig) (now : ℤ) : AgentState :=
  { timestamp := now
    confidence := 0.5
    suspicion := 0.5
    conviction := 0.5
    fatigue := 0
    aggression := 0.3
    regret := 0
    primaryMood := Mood.neutral
    secondaryMood := none
    riskAppetite := config.baseRiskAppetite
    mode := OperationalMode.observing
    recentWinStreak := 0
    recentLossStreak := 0
    lastTradeTimestamp := none
    daysSinceLastTrade := 0
    tokenConvictions := []
    internalMonologue := none }

/-- `setMode(mode)`. -/
def setMode (s : AgentState) (mode : OperationalMode) (now : ℤ) : AgentState :=
  { s with mode := mode, timestamp := now }

/-- Stable descending insertion used to model the JS stable
`sort((a, b) => b.value - a.value)` on the secondary-mood candidates. -/
def insertDesc (x : Mood × ℚ) : List (Mood × ℚ) → List (Mood × ℚ)
  | [] => [x]
  | y :: ys => if y.2 < x.2 then x :: y :: ys else y :: insertDesc x ys

/-- Stable descending sort by score (equal scores keep source order, as the
ES2019 stable `Array.prototype.sort` does). -/
def sortDesc (l : List (Mood × ℚ)) : List (Mood × ℚ) :=
  l.foldl (fun acc x => insertDesc x acc) []

/-- `updateMood()`: the primary-mood priority cascade and the
secondary-mood selection. -/
def updateMood (s : AgentState) : AgentState :=
  let primary :=
    if s.regret > 0.6 then Mood.regretful
    else if s.fatigue > 0.7 then Mood.fatigued
    else if s.suspicion > 0.6 then Mood.suspicious
    else if s.confidence > 0.7 ∧ s.conviction > 0.6 then Mood.confident
    else if s.aggression > 0.6 ∧ s.confidence > 0.5 then Mood.aggressive
    else if s.conviction > 0.7 then Mood.obsessed
    else if s.confidence < 0.4 then Mood.cautious
    else Mood.neutral
  let params : List (Mood × ℚ) :=
    [(Mood.regretful, s.regret),
     (Mood.suspicious, s.suspicion),
     (Mood.cautious, if s.confidence < 0.5 then 0.8 else 0),
     (Mood.fatigued, s.fatigue)]
  let sorted := sortDesc (params.filter (fun p => decide (p.1 ≠ primary)))
  let secondary :=
    match sorted with
    | p :: _ => if p.2 > 0.4 then some p.1 else none
    | [] => none
  { s with primaryMood := primary, secondaryMood := secondary }

/-- `updateFromTrade(trade)`: win/loss parameter nudges with the source's
caps and floors, streak bookkeeping, then `updateMood` and timestamps.
`isWin` uses JS `(trade.filledAmount || 0) > 0`; `isLoss` uses the JS
truthiness of `trade.error`. -/
def updateFromTrade (s : AgentState) (trade : TradeResult) (now : ℤ) : AgentState :=
  let isWin := trade.status = TradeStatus.filled ∧ numOr trade.filledAmount 0 > 0
  let isLoss := trade.status = TradeStatus.failed ∨ strTruthy trade.error
  let s1 :=
    if isWin then
      { s with
        confidence := min 0.95 (s.confidence + 0.08)
        regret := max 0 (s.regret - 0.05)
        conviction := min 0.95 (s.conviction + 0.06)
        recentWinStreak := s.recentWinStreak + 1
        recentLossStreak := 0
        riskAppetite := min 0.9 (s.riskAppetite + 0.03) }
    else if isLoss then
      { s with
        confidence := max 0.1 (s.confidence - 0.12)
        regret := min 0.9 (s.regret + 0.15)
        suspicion := min 0.9 (s.suspicion + 0.1)
        recentLossStreak := s.recentLossStreak + 1
        recentWinStreak := 0
        riskAppetite := max 0.1 (s.riskAppetite - 0.08) }
    else s
  let s2 := updateMood s1
  { s2 with lastTradeTimestamp := some trade.timestamp, timestamp := now }

end StateLayer

/-! ## Decision Engine (src/modules/decision/index.ts) -/

/-- `DecisionConfig`. -/
structure DecisionConfig where
  intentCooldownMs : ℤ
  minSignalConfidence : ℚ
  probabilisticThresholds : Bool
deriving DecidableEq, Repr

/-- The mutable field of class `DecisionEngine` plus its config
(`lastIntentTime` starts at 0). -/
structure DecisionEngine where
  config : DecisionConfig
  lastIntentTime : ℤ := 0
deriving DecidableEq, Repr

namespace DecisionEngine

/-- `canDecide()`: `Date.now() - lastIntentTime >= intentCooldownMs`. -/
def canDecide (e : DecisionEngine) (now : ℤ) : Bool :=
  now - e.lastIntentTime ≥ e.config.intentCooldownMs

/-- Grouping key: `signal.tokenAddress || 'general'`. -/
def signalKey (s : Signal) : String := strOr s.tokenAddress "general"

/-- Append to the signal list of key `k` (insertion-ordered Map). -/
def pushGroup (gs : List (String × List Signal)) (k : String) (s : Signal) :
    List (String × List Signal) :=
  if gs.any (fun g => g.1 = k) then
    gs.map (fun g => if g.1 = k then (g.1, g.2 ++ [s]) else g)
  else gs ++ [(k, [s])]

/-- `groupSignalsByToken(signals)`. -/
def groupSignalsByToken (signals : List Signal) : List (String × List Signal) :=
  signals.foldl (fun gs s => pushGroup gs (signalKey s) s) []

/-- `signalsByToken.get(key) || []`. -/
def lookupGroup (gs : List (String × List Signal)) (k : String) : List Signal :=
  match gs.find? (fun g => g.1 = k) with
  | some g => g.2
  | none => []

/-- `state.tokenConvictions.get(addr) || 0.5` (JS: a stored 0 is falsy). -/
def convictionOr (convs : List (String × ℚ)) (addr : String) : ℚ :=
  match convs.find? (fun c => c.1 = addr) with
  | some c => if c.2 = 0 then 0.5 else c.2
  | none => 0.5

/-- `generateAlternatives(type, state)`. -/
def generateAlternatives (type : IntentType) : List String :=
  match type with
  | .enter => ["wait for more confirmation", "watch from sidelines"]
  | .exit => ["reduce instead of full exit", "hold and wait"]
  | .wait => ["force entry on weak signal", "go dormant"]
  | _ => []

/-- `createIntent(...)` (the `intent_${Date.now()}` id is the timestamp). -/
def createIntent (now : ℤ) (type : IntentType) (state : AgentState)
    (signals : List Signal) (reason : String)
    (tokenAddress tokenSymbol : Option String) (sizePct : Option ℚ) : Intent :=
  { id := "intent_" ++ toString now
    timestamp := now
    type := type
    tokenAddress := tokenAddress
    tokenSymbol := tokenSymbol
    sizePct := sizePct
    primaryReason := reason
    supportingSignals := signals.map (fun s => s.id)
    stateSnapshot :=
      { mood := state.primaryMood
        confidence := state.confidence
        riskAppetite := state.riskAppetite }
    alternatives := generateAlternatives type
    probabilityThreshold := 0.5 }

/-- `checkExitConditions(position, signalsByToken, state)`. -/
def checkExitConditions (now : ℤ) (position : Position)
    (grouped : List (String × List Signal)) (state : AgentState) : Option Intent :=
  let signals := lookupGroup grouped position.tokenAddress
  let afterLiquidity : Option Intent :=
    match signals.find? (fun s => s.type = SignalType.liquidity_pull) with
    | some lp =>
      if lp.urgency > 0.7 then
        some (createIntent now .exit state [lp] "Liquidity drying up - exit now"
          (some position.tokenAddress) (some position.tokenSymbol) (some 100))
      else none
    | none => none
  match afterLiquidity with
  | some i => some i
  | none =>
    let afterExhaustion : Option Intent :=
      if numOr position.unrealizedPnLPct 0 > 10 then
        match signals.find? (fun s => s.type = SignalType.price_exhaustion) with
        | some ex =>
          some (createIntent now .exit state [ex] "Taking profit - momentum fading"
            (some position.tokenAddress) (some position.tokenSymbol) (some 100))
        | none => none
      else none
    match afterExhaustion with
    | some i => some i
    | none =>
      if convictionOr state.tokenConvictions position.tokenAddress < 0.3 then
        some (createIntent now .exit state signals "Lost conviction in this token"
          (some position.tokenAddress) (some position.tokenSymbol) (some 100))
      else none

/-- `checkReduceConditions(position, signalsByToken, state)`. -/
def checkReduceConditions (now : ℤ) (position : Position)
    (grouped : List (String × List Signal)) (state : AgentState) : Option Intent :=
  let signals := lookupGroup grouped position.tokenAddress
  if state.primaryMood = Mood.suspicious ∧ numOr position.unrealizedPnLPct 0 > 5 then
    some (createIntent now .reduce state signals "Feeling suspicious - taking some off"
      (some position.tokenAddress) (some position.tokenSymbol) (some 50))
  else none

/-- `calculatePositionSize(state)`. -/
def calculatePositionSize (state : AgentState) : ℚ :=
  min 20 (10 * state.riskAppetite * state.confidence)

/-- The strongest-signal scan of `checkEnterConditions`: skip tokens with an
open position; keep the strictly larger `confidence·strength·urgency`. -/
def strongestEntry (grouped : List (String × List Signal))
    (positions : List Position) : Option Signal × ℚ :=
  grouped.foldl
    (fun acc g =>
      if positions.any (fun p => p.tokenAddress = g.1) then acc
      else
        g.2.foldl
          (fun acc2 s =>
            let score := s.confidence * s.strength * s.urgency
            if score > acc2.2 then (some s, score) else acc2)
          acc)
    (none, 0)

/-- `checkEnterConditions(signalsByToken, positions, state)`. -/
def checkEnterConditions (now : ℤ) (grouped : List (String × List Signal))
    (positions : List Position) (state : AgentState) : Option Intent :=
  if state.primaryMood = Mood.cautious ∨ state.primaryMood = Mood.regretful then
    none
  else
    match strongestEntry grouped positions with
    | (none, _) => none
    | (some strongest, strongestScore) =>
      let adjustedThreshold := 0.4 * (2 - state.confidence)
      if strongestScore < adjustedThreshold then none
      else if strongest.type = SignalType.early_momentum ∨
              strongest.type = SignalType.volume_surge then
        some (createIntent now .enter state [strongest]
          (strongest.description ++ " - entering position")
          strongest.tokenAddress strongest.tokenSymbol
          (some (calculatePositionSize state)))
      else none

/-- `checkAddConditions(position, signalsByToken, state)`. -/
def checkAddConditions (now : ℤ) (position : Position)
    (grouped : List (String × List Signal)) (state : AgentState) : Option Intent :=
  let signals := lookupGroup grouped position.tokenAddress
  if state.confidence < 0.6 ∧ state.primaryMood ≠ Mood.aggressive then none
  else
    match signals.find? (fun s => s.type = SignalType.volume_surge) with
    | some vs =>
      if vs.confidence > 0.7 then
        some (createIntent now .add state [vs] "Volume confirming - adding to position"
          (some position.tokenAddress) (some position.tokenSymbol) (some 25))
      else none
    | none => none

/-- `decide(signals, state, positions)`: returns the produced intent (or
`null`) together with the engine state after the call.  Note that the early
"no strong signals" WAIT return does not touch `lastIntentTime`, while every
other non-null return sets it to `Date.now()`. -/
def decide (e : DecisionEngine) (now : ℤ) (signals : List Signal)
    (state : AgentState) (positions : List Position) :
    Option Intent × DecisionEngine :=
  if ¬ e.canDecide now then (none, e)
  else
    let validSignals := signals.filter
      (fun s => Decidable.decide (s.confidence ≥ e.config.minSignalConfidence))
    if validSignals.isEmpty then
      (some (createIntent now .wait state [] "No strong signals detected"
        none none none), e)
    else
      let grouped := groupSignalsByToken validSignals
      let result :=
        match positions.findSome? (fun p => checkExitConditions now p grouped state) with
        | some i => i
        | none =>
          match positions.findSome? (fun p => checkReduceConditions now p grouped state) with
          | some i => i
          | none =>
            match checkEnterConditions now grouped positions state with
            | some i => i
            | none =>
              match positions.findSome? (fun p => checkAddConditions now p grouped state) with
              | some i => i
              | none =>
                createIntent now .wait state validSignals
                  "Observing market conditions" none none none
      (some result, { e with lastIntentTime := now })

end DecisionEngine

/-! ## Signal detectors (src/modules/signals/detectors.ts)

Each detector takes the event window, the window length, and the current
time (`Date.now()` at detection time, passed explicitly). -/

/-- Append `v` to the bucket of key `k` of an insertion-ordered JS `Map`
of arrays (`if (!m.has(k)) m.set(k, []); m.get(k)!.push(v)`). -/
def pushAssoc {α : Type} (m : List (String × List α)) (k : String) (v : α) :
    List (String × List α) :=
  if m.any (fun g => g.1 = k) then
    m.map (fun g => if g.1 = k then (g.1, g.2 ++ [v]) else g)
  else m ++ [(k, [v])]

/-- `detectVolumeSurge(events, windowMs)`. -/
def detectVolumeSurge (events : List Event) (windowMs now : ℤ) : List DetectorResult :=
  let cutoff := now - windowMs
  let tokenVolumes := events.foldl
    (fun m e =>
      if e.type = EventType.volume_spike ∧ e.timestamp > cutoff then
        pushAssoc m (strOr e.tokenAddress "unknown") e
      else m) ([] : List (String × List Event))
  tokenVolumes.foldl
    (fun (results : List DetectorResult) g =>
      if g.2.length ≥ 2 then
        match g.2.getLast? with
        | some latest =>
          let multiplier := numOr latest.data.multiplier 1
          results ++
            [{ type := SignalType.volume_surge
               confidence := min 0.95 (0.5 + (multiplier - 1) * 0.15)
               strength := min 1 (multiplier / 5)
               urgency := if g.2.length > 3 then 0.8 else 0.5
               description := "Volume spike"
               tokenAddress := some g.1
               tokenSymbol := latest.tokenSymbol
               sourceEventIds := g.2.map (fun e => e.id) }]
        | none => results
      else results) ([] : List DetectorResult)

/-- `detectEarlyMomentum(events, windowMs)`. -/
def detectEarlyMomentum (events : List Event) (windowMs now : ℤ) : List DetectorResult :=
  let cutoff := now - windowMs
  let tokenEvents := events.foldl
    (fun m e =>
      if e.timestamp > cutoff ∧ strTruthy e.tokenAddress then
        pushAssoc m (e.tokenAddress.getD "") e
      else m) ([] : List (String × List Event))
  tokenEvents.foldl
    (fun (results : List DetectorResult) g =>
      let priceEvents : List Event := g.2.filter (fun e => Decidable.decide (e.type = EventType.price_change))
      let volumeEvents : List Event := g.2.filter (fun e => Decidable.decide (e.type = EventType.volume_spike))
      if priceEvents.length > 0 ∧ volumeEvents.length > 0 then
        match priceEvents.getLast? with
        | some latestPrice =>
          let priceChange := numOr latestPrice.data.changePercent 0
          if priceChange > 5 then
            results ++
              [{ type := SignalType.early_momentum
                 confidence := 0.6
                 strength := min 1 (|priceChange| / 20)
                 urgency := 0.7
                 description := "Price up with volume"
                 tokenAddress := some g.1
                 tokenSymbol := latestPrice.tokenSymbol
                 sourceEventIds :=
                   priceEvents.map (fun e => e.id) ++ volumeEvents.map (fun e => e.id) }]
          else results
        | none => results
      else results) ([] : List DetectorResult)

/-- `detectLiquidityPull(events, windowMs)` (one result per qualifying
event). -/
def detectLiquidityPull (events : List Event) (windowMs now : ℤ) : List DetectorResult :=
  let cutoff := now - windowMs
  events.foldl
    (fun (results : List DetectorResult) e =>
      if e.type = EventType.liquidity_change ∧ e.timestamp > cutoff then
        let changePercent := numOr e.data.changePercent 0
        if changePercent < -15 then
          results ++
            [{ type := SignalType.liquidity_pull
               confidence := 0.75
               strength := min 1 (|changePercent| / 30)
               urgency := if changePercent < -30 then 0.9 else 0.6
               description := "Liquidity dropped"
               tokenAddress := e.tokenAddress
               tokenSymbol := e.tokenSymbol
               sourceEventIds := [e.id] }]
        else results
      else results) ([] : List DetectorResult)

/-- Stable insertion by ascending timestamp, modelling the stable JS
`sort((a, b) => a.timestamp - b.timestamp)`. -/
def insertByTs (x : Event) : List Event → List Event
  | [] => [x]
  | y :: ys => if x.timestamp < y.timestamp then x :: y :: ys else y :: insertByTs x ys

/-- Stable sort by ascending timestamp. -/
def sortByTs (l : List Event) : List Event :=
  l.foldl (fun acc x => insertByTs x acc) []

/-- `detectPriceExhaustion(events, windowMs)`. -/
def detectPriceExhaustion (events : List Event) (windowMs now : ℤ) : List DetectorResult :=
  let cutoff := now - windowMs
  let tokenPrices := events.foldl
    (fun m e =>
      if e.type = EventType.price_change ∧ e.timestamp > cutoff ∧ strTruthy e.tokenAddress then
        pushAssoc m (e.tokenAddress.getD "") e
      else m) ([] : List (String × List Event))
  tokenPrices.foldl
    (fun (results : List DetectorResult) g =>
      if g.2.length ≥ 3 then
        let sorted := sortByTs g.2
        let recent := sorted.drop (sorted.length - 3)
        let changes := recent.map (fun e => numOr e.data.changePercent 0)
        let avgChange := changes.sum / (changes.length : ℚ)
        if avgChange < 2 ∧
            (sorted.take (sorted.length - 3)).any
              (fun e => Decidable.decide (numOr e.data.changePercent 0 > 10)) then
          results ++
            [{ type := SignalType.price_exhaustion
               confidence := 0.55
               strength := 0.6
               urgency := 0.4
               description := "Price momentum slowing after spike"
               tokenAddress := some g.1
               tokenSymbol :=
                 match recent with
                 | r0 :: _ => r0.tokenSymbol
                 | [] => none
               sourceEventIds := recent.map (fun e => e.id) }]
        else results
      else results) ([] : List DetectorResult)

/-- `detectDormancy(events, allTokens, windowMs)`. -/
def detectDormancy (events : List Event) (allTokens : List String)
    (windowMs now : ℤ) : List DetectorResult :=
  let cutoff := now - windowMs
  let activeTokens := events.foldl
    (fun acc e =>
      if e.timestamp > cutoff ∧ strTruthy e.tokenAddress then
        acc ++ [e.tokenAddress.getD ""]
      else acc) ([] : List String)
  allTokens.foldl
    (fun (results : List DetectorResult) t =>
      if activeTokens.contains t then results
      else
        results ++
          [{ type := SignalType.dormancy
             confidence := 0.7
             strength := 0.5
             urgency := 0.2
             description := "No recent activity detected"
             tokenAddress := some t
             tokenSymbol := none
             sourceEventIds := [] }]) ([] : List DetectorResult)

/-- `detectHypeBurst(events, windowMs)`. -/
def detectHypeBurst (events : List Event) (windowMs now : ℤ) : List DetectorResult :=
  let cutoff := now - windowMs
  let socialEvents := events.filter
    (fun e => Decidable.decide
      ((e.type = EventType.mention_spike ∨ e.type = EventType.sentiment_shift) ∧
        e.timestamp > cutoff))
  let tokenSocial := socialEvents.foldl
    (fun m e => pushAssoc m (strOr e.tokenAddress "general") e)
    ([] : List (String × List Event))
  tokenSocial.foldl
    (fun (results : List DetectorResult) g =>
      if g.2.length ≥ 2 then
        results ++
          [{ type := SignalType.hype_burst
             confidence := 0.5
             strength := min 1 ((g.2.length : ℚ) / 5)
             urgency := 0.65
             description := "social signals detected"
             tokenAddress := if g.1 = "general" then none else some g.1
             tokenSymbol := none
             sourceEventIds := g.2.map (fun e => e.id) }]
      else results) ([] : List DetectorResult)

/-- `runAllDetectors(events, trackedTokens, windowMs)`: the six detectors
run in source order and their results are concatenated. -/
def runAllDetectors (events : List Event) (trackedTokens : List String)
    (windowMs now : ℤ) : List DetectorResult :=
  detectVolumeSurge events windowMs now ++
  detectEarlyMomentum events windowMs now ++
  detectLiquidityPull events windowMs now ++
  detectPriceExhaustion events windowMs now ++
  detectHypeBurst events windowMs now ++
  detectDormancy events trackedTokens windowMs now

/-- The sequential detector battery with JS exception semantics: each
detector is a possibly-throwing function, and `runAllDetectors` pushes each
result array in turn with no try/catch, so a throw propagates and aborts
the remaining detectors. -/
def runDetectorBatteryFrom (events : List Event)
    (acc : List DetectorResult) :
    List (List Event → Except String (List DetectorResult)) →
    Except String (List DetectorResult)
  | [] => Except.ok acc
  | d :: ds =>
    match d events with
    | Except.ok rs => runDetectorBatteryFrom events (acc ++ rs) ds
    | Except.error e => Except.error e

/-- Run the battery from an empty result array, as `runAllDetectors`
does. -/
def runDetectorBattery
    (detectors : List (List Event → Except String (List DetectorResult)))
    (events : List Event) : Except String (List DetectorResult) :=
  runDetectorBatteryFrom events [] detectors

/-- The source battery as exception-typed detectors (all total, none ever
throws). -/
def sourceBattery (trackedTokens : List String) (windowMs now : ℤ) :
    List (List Event → Except String (List DetectorResult)) :=
  [fun evs => Except.ok (detectVolumeSurge evs windowMs now),
   fun evs => Except.ok (detectEarlyMomentum evs windowMs now),
   fun evs => Except.ok (detectLiquidityPull evs windowMs now),
   fun evs => Except.ok (detectPriceExhaustion evs windowMs now),
   fun evs => Except.ok (detectHypeBurst evs windowMs now),
   fun evs => Except.ok (detectDormancy evs trackedTokens windowMs now)]

/-! ## Signal Layer (src/modules/signals/index.ts) -/

/-- `SignalConfig`. -/
structure SignalConfig where
  windowSizeMs : ℤ
  decayHalfLifeMs : ℤ
  minConfidence : ℚ
deriving DecidableEq, Repr

/-- The mutable fields of class `SignalLayer` plus its config. -/
structure SignalLayer where
  config : SignalConfig
  activeSignals : List Signal := []
  eventWindow : List Event := []
  signalIdCounter : ℕ := 0
deriving DecidableEq, Repr

namespace SignalLayer

/-- The "similar signal already exists" predicate of `processEvents`:
same type and token address, not yet expired. -/
def matchesLive (now : ℤ) (r : DetectorResult) (s : Signal) : Bool :=
  s.type = r.type ∧ s.tokenAddress = r.tokenAddress ∧ s.expiresAt > now

/-- In-place reinforcement of an existing signal. -/
def reinforceMatch (cfg : SignalConfig) (now : ℤ) (r : DetectorResult)
    (s : Signal) : Signal :=
  { s with
    confidence := min 0.99 (s.confidence + 0.1)
    strength := max s.strength r.strength
    expiresAt := now + cfg.decayHalfLifeMs * 3
    sourceEventIds := s.sourceEventIds ++ r.sourceEventIds }

/-- Replace the first element satisfying `p` by its image under `f`
(`Array.prototype.find` returns the first match, which is then mutated). -/
def updateFirst (p : Signal → Bool) (f : Signal → Signal) :
    List Signal → List Signal
  | [] => []
  | x :: xs => if p x then f x :: xs else x :: updateFirst p f xs

/-- The fresh `Signal` object built for an unmatched detector result. -/
def newSignalOf (cfg : SignalConfig) (now : ℤ) (counter : ℕ)
    (r : DetectorResult) : Signal :=
  { id := "signal_" ++ toString now ++ "_" ++ toString counter
    timestamp := now
    type := r.type
    tokenAddress := r.tokenAddress
    tokenSymbol := r.tokenSymbol
    confidence := r.confidence
    strength := r.strength
    urgency := r.urgency
    description := r.description
    sourceEventIds := r.sourceEventIds
    expiresAt := now + cfg.decayHalfLifeMs * 3
    decayRate := 0.5 }

/-- The detector-result loop of `processEvents`: skip low-confidence
results, reinforce a live match, otherwise create and collect a new signal.
Returns (active list, new signals, id counter). -/
def integrateResults (cfg : SignalConfig) (now : ℤ) :
    List Signal → ℕ → List DetectorResult → List Signal × List Signal × ℕ
  | active, counter, [] => (active, [], counter)
  | active, counter, r :: rest =>
    if r.confidence < cfg.minConfidence then
      integrateResults cfg now active counter rest
    else
      match active.find? (matchesLive now r) with
      | some _ =>
        integrateResults cfg now
          (updateFirst (matchesLive now r) (reinforceMatch cfg now r) active)
          counter rest
      | none =>
        let sig := newSignalOf cfg now counter r
        let rec_result := integrateResults cfg now (active ++ [sig]) (counter + 1) rest
        (rec_result.1, sig :: rec_result.2.1, rec_result.2.2)

/-- `processEvents(events, trackedTokens)`: extend and trim the rolling
window, run the detectors, integrate their results.  Returns the new
signals and the layer state after the call. -/
def processEvents (layer : SignalLayer) (now : ℤ) (events : List Event)
    (trackedTokens : List String) : List Signal × SignalLayer :=
  let window := (layer.eventWindow ++ events).filter
    (fun e => Decidable.decide (e.timestamp > now - layer.config.windowSizeMs))
  let detectorResults := runAllDetectors window trackedTokens layer.config.windowSizeMs now
  let res := integrateResults layer.config now layer.activeSignals
    layer.signalIdCounter detectorResults
  (res.2.1,
   { layer with
     activeSignals := res.1, eventWindow := window, signalIdCounter := res.2.2 })

/-- One pass of the decay loop of `updateSignals` on one signal:
`confidence *= powFn(decayRate, (now - timestamp) / decayHalfLifeMs)`, and a
signal decayed below `minConfidence` is marked for removal by setting
`expiresAt := now - 1`.  `powFn` abstracts `Math.pow`. -/
def decayStep (powFn : ℚ → ℚ → ℚ) (cfg : SignalConfig) (now : ℤ)
    (s : Signal) : Signal :=
  let age : ℤ := now - s.timestamp
  let halfLives : ℚ := (age : ℚ) / (cfg.decayHalfLifeMs : ℚ)
  let decayFactor := powFn s.decayRate halfLives
  let s1 := { s with confidence := s.confidence * decayFactor }
  if s1.confidence < cfg.minConfidence then { s1 with expiresAt := now - 1 } else s1

/-- `updateSignals()`: evict expired signals, decay the survivors in place,
then keep only unexpired signals above `minConfidence`.  Returns the active
list and the layer state after the call. -/
def updateSignals (powFn : ℚ → ℚ → ℚ) (layer : SignalLayer) (now : ℤ) :
    List Signal × SignalLayer :=
  let afterExpiry := layer.activeSignals.filter
    (fun s => Decidable.decide (s.expiresAt > now))
  let decayed := afterExpiry.map (decayStep powFn layer.config now)
  let final := decayed.filter
    (fun s => Decidable.decide (s.expiresAt > now ∧ s.confidence ≥ layer.config.minConfidence))
  (final, { layer with activeSignals := final })

end SignalLayer

/-- `Math.pow` specialised to the non-negative integer exponents exercised
by the concrete decay runs below (`powQ r q = r ^ q` when `q` is a
non-negative integer, the only values these runs produce). -/
def powQ (r q : ℚ) : ℚ := r ^ q.num.toNat

/-- `(type, tokenAddress)` of a signal: the key the spec's uniqueness
invariant is stated over. -/
def pairOf (s : Signal) : SignalType × Option String := (s.type, s.tokenAddress)

/-- `s.expiresAt > now`: the signal is still live. -/
def liveAt (now : ℤ) (s : Signal) : Prop := s.expiresAt > now

instance (now : ℤ) (s : Signal) : Decidable (liveAt now s) := by
  unfold liveAt; infer_instance

/-- At most one live signal per `(type, tokenAddress)` pair. -/
def LiveUnique (now : ℤ) (l : List Signal) : Prop :=
  l.Pairwise (fun a b => liveAt now a → liveAt now b → pairOf a ≠ pairOf b)

/-! ## Paper Trading Simulator (src/modules/execution: PaperTradingSimulator)

The mock-price source is modelled by an explicit price map `prices`; the
claims under verification hypothesise that per-token prices do not change
across the examined call sequence, which is exactly what a fixed map
expresses.  A thrown `Error` is `Except.error`; every `throw` in the source
happens before any state mutation, so `execute`'s catch leaves the
simulator state unchanged on failure. -/

/-- `SimulatorConfig`. -/
structure SimulatorConfig where
  initialCapital : ℚ
  slippagePct : ℚ
deriving DecidableEq, Repr

/-- The mutable portfolio of `PaperTradingSimulator`: free capital and the
insertion-ordered `Map` of open positions. -/
structure SimState where
  capital : ℚ
  positions : List (String × Position) := []
deriving DecidableEq, Repr

/-- JS falsiness of an optional number (`!x`). -/
def numFalsy : Option ℚ → Bool
  | none => true
  | some v => v = 0

namespace PaperTradingSimulator

/-- `this.positions.get(k)`. -/
def mapGet (m : List (String × Position)) (k : String) : Option Position :=
  (m.find? (fun e => e.1 = k)).map (fun e => e.2)

/-- `this.positions.set(k, v)` (replaces an existing entry in place,
appends otherwise). -/
def mapSet (m : List (String × Position)) (k : String) (v : Position) :
    List (String × Position) :=
  if m.any (fun e => e.1 = k) then
    m.map (fun e => if e.1 = k then (k, v) else e)
  else m ++ [(k, v)]

/-- `this.positions.delete(k)`. -/
def mapDelete (m : List (String × Position)) (k : String) :
    List (String × Position) :=
  m.filter (fun e => Decidable.decide (e.1 ≠ k))

/-- Fresh simulator: `capital = initialCapital`, no positions. -/
def mkFresh (cfg : SimulatorConfig) : SimState :=
  { capital := cfg.initialCapital, positions := [] }

/-- `simulateEnter(intent, result)`. -/
def simulateEnter (cfg : SimulatorConfig) (prices : String → ℚ) (now : ℤ)
    (st : SimState) (intent : Intent) : Except String SimState :=
  if ¬ strTruthy intent.tokenAddress ∨ numFalsy intent.sizePct then
    .error "Missing token address or size"
  else
    let addr := intent.tokenAddress.getD ""
    let s := intent.sizePct.getD 0
    let investAmount := st.capital * (s / 100)
    if investAmount > st.capital then .error "Insufficient capital"
    else
      let price := prices addr
      let slippage := cfg.slippagePct / 100
      let actualPrice := price * (1 + slippage)
      let amount := investAmount / actualPrice
      let position : Position :=
        { tokenAddress := addr
          tokenSymbol := intent.tokenSymbol.getD ""
          amount := amount
          averageEntryPrice := actualPrice
          currentPrice := some actualPrice
          unrealizedPnL := some 0
          unrealizedPnLPct := some 0
          openedAt := now
          lastUpdatedAt := now
          entryIntentId := intent.id
          tradeIds := ["sim_trade_" ++ toString now] }
      .ok { capital := st.capital - investAmount
            positions := mapSet st.positions addr position }

/-- `simulateExit(intent, result)`. -/
def simulateExit (cfg : SimulatorConfig) (prices : String → ℚ) (_now : ℤ)
    (st : SimState) (intent : Intent) : Except String SimState :=
  if ¬ strTruthy intent.tokenAddress then .error "Missing token address"
  else
    let addr := intent.tokenAddress.getD ""
    match mapGet st.positions addr with
    | none => .error "No position to exit"
    | some position =>
      let slippage := cfg.slippagePct / 100
      let actualPrice := prices addr * (1 - slippage)
      let proceeds := position.amount * actualPrice
      .ok { capital := st.capital + proceeds
            positions := mapDelete st.positions addr }

/-- `simulateAdd(intent, result)` (note: no insufficient-capital check in
the source). -/
def simulateAdd (cfg : SimulatorConfig) (prices : String → ℚ) (now : ℤ)
    (st : SimState) (intent : Intent) : Except String SimState :=
  if ¬ strTruthy intent.tokenAddress ∨ numFalsy intent.sizePct then
    .error "Missing token address or size"
  else
    let addr := intent.tokenAddress.getD ""
    let s := intent.sizePct.getD 0
    match mapGet st.positions addr with
    | none => .error "No position to add to"
    | some position =>
      let investAmount := st.capital * (s / 100)
      let slippage := cfg.slippagePct / 100
      let actualPrice := prices addr * (1 + slippage)
      let additionalAmount := investAmount / actualPrice
      let totalCost := position.amount * position.averageEntryPrice + investAmount
      let totalAmount := position.amount + additionalAmount
      let position' :=
        { position with
          averageEntryPrice := totalCost / totalAmount
          amount := totalAmount
          lastUpdatedAt := now
          tradeIds := position.tradeIds ++ ["sim_trade_" ++ toString now] }
      .ok { capital := st.capital - investAmount
            positions := mapSet st.positions addr position' }

/-- `simulateReduce(intent, result)` (the position stays open, possibly at
amount 0). -/
def simulateReduce (cfg : SimulatorConfig) (prices : String → ℚ) (now : ℤ)
    (st : SimState) (intent : Intent) : Except String SimState :=
  if ¬ strTruthy intent.tokenAddress ∨ numFalsy intent.sizePct then
    .error "Missing token address or size"
  else
    let addr := intent.tokenAddress.getD ""
    let s := intent.sizePct.getD 0
    match mapGet st.positions addr with
    | none => .error "No position to reduce"
    | some position =>
      let reduceAmount := position.amount * (s / 100)
      let slippage := cfg.slippagePct / 100
      let actualPrice := prices addr * (1 - slippage)
      let proceeds := reduceAmount * actualPrice
      let position' :=
        { position with
          amount := position.amount - reduceAmount
          lastUpdatedAt := now
          tradeIds := position.tradeIds ++ ["sim_trade_" ++ toString now] }
      .ok { capital := st.capital + proceeds
            positions := mapSet st.positions addr position' }

/-- The dispatch of `execute(intent)`: non-tradable intent types produce a
CANCELLED result and leave the portfolio untouched. -/
def execRun (cfg : SimulatorConfig) (prices : String → ℚ) (now : ℤ)
    (st : SimState) (intent : Intent) : Except String SimState :=
  match intent.type with
  | .enter => simulateEnter cfg prices now st intent
  | .exit => simulateExit cfg prices now st intent
  | .add => simulateAdd cfg prices now st intent
  | .reduce => simulateReduce cfg prices now st intent
  | _ => .ok st

/-- `execute(intent)` at the portfolio level: a thrown error is caught and
reported as a FAILED TradeResult, leaving the state unchanged. -/
def simStep (cfg : SimulatorConfig) (prices : String → ℚ) (now : ℤ)
    (st : SimState) (intent : Intent) : SimState :=
  match execRun cfg prices now st intent with
  | .ok st' => st'
  | .error _ => st

/-- Executing a sequence of intents. -/
def runIntents (cfg : SimulatorConfig) (prices : String → ℚ) (now : ℤ)
    (st : SimState) (intents : List Intent) : SimState :=
  intents.foldl (simStep cfg prices now) st

/-- `getTotalValue()`: capital plus `Σ amount · (currentPrice ||
averageEntryPrice)`. -/
def getTotalValue (st : SimState) : ℚ :=
  st.capital + (st.positions.map (fun e => e.2.amount * priceOrAvg e.2)).sum

/-- Total market value of the open positions
(`Σ amount · (currentPrice || averageEntryPrice)`). -/
def sumVal (m : List (String × Position)) : ℚ :=
  (m.map (fun e => e.2.amount * priceOrAvg e.2)).sum

/-- Shape of the portfolio states the simulator produces under a fixed
price map: position keys are distinct and every open position's
`currentPrice` is the price of its key.  A fresh simulator satisfies this
trivially, and every operation preserves it. -/
def PriceInv (prices : String → ℚ) (st : SimState) : Prop :=
  (st.positions.map Prod.fst).Nodup ∧
  ∀ e ∈ st.positions, e.2.currentPrice = some (prices e.1)

/-- An intent sequence in which no ENTER targets an already-open token;
an ENTER on an open token overwrites the position via `Map.set` and
destroys its value. -/
def SeqOk (cfg : SimulatorConfig) (prices : String → ℚ) (now : ℤ) :
    SimState → List Intent → Bool
  | _, [] => true
  | st, i :: rest =>
    (!(Decidable.decide (i.type = IntentType.enter)) ||
      !strTruthy i.tokenAddress ||
      (mapGet st.positions (i.tokenAddress.getD "")).isNone) &&
    SeqOk cfg prices now (simStep cfg prices now st i) rest

end PaperTradingSimulator

/-! ## Reference-semantics model of `StateLayer.getState()` (for the
snapshot-isolation claim)

`getState()` returns `{ ...this.state }`: a fresh top-level object whose
fields are copied by value — except `tokenConvictions`, a `Map`, which is
copied by reference.  The model makes object identity explicit: a heap of
agent-state objects and of `Map` contents; an `AgentObj` stores the same
scalar fields as `AgentState` plus the index (`convRef`) of its `Map`. -/

/-- A JS agent-state object: `AgentState` with the `tokenConvictions` Map
held by reference. -/
structure AgentObj where
  timestamp : ℤ
  confidence : ℚ
  suspicion : ℚ
  conviction : ℚ
  fatigue : ℚ
  aggression : ℚ
  regret : ℚ
  primaryMood : Mood
  secondaryMood : Option Mood := none
  riskAppetite : ℚ
  mode : OperationalMode
  recentWinStreak : ℕ
  recentLossStreak : ℕ
  lastTradeTimestamp : Option ℤ := none
  daysSinceLastTrade : ℚ
  convRef : ℕ
  internalMonologue : Option String := none
deriving DecidableEq, Repr

/-- The heap: agent-state objects and `Map` contents, addressed by index. -/
structure JsHeap where
  objects : List AgentObj
  maps : List (List (String × ℚ))
deriving DecidableEq, Repr

namespace SnapshotModel

/-- Update index `i` of a list in place (no-op when out of range). -/
def updateAt {α : Type} (l : List α) (i : ℕ) (f : α → α) : List α :=
  match l.get? i with
  | some x => l.set i (f x)
  | none => l

/-- `map.set(k, v)` on `Map<string, number>` contents. -/
def assocSet (m : List (String × ℚ)) (k : String) (v : ℚ) : List (String × ℚ) :=
  if m.any (fun e => e.1 = k) then
    m.map (fun e => if e.1 = k then (k, v) else e)
  else m ++ [(k, v)]

/-- `map.get(k)` on `Map<string, number>` contents. -/
def assocGet (m : List (String × ℚ)) (k : String) : Option ℚ :=
  (m.find? (fun e => e.1 = k)).map (fun e => e.2)

/-- `getState()`: allocate a shallow copy (`{ ...this.state }`) of the
layer's object — same scalar values, same `convRef` — and hand back its
index. -/
def getState (h : JsHeap) (layerId : ℕ) : JsHeap × ℕ :=
  match h.objects.get? layerId with
  | some o => ({ h with objects := h.objects ++ [o] }, h.objects.length)
  | none => (h, layerId)

/-- Consumer-side mutations of a held object: assignments to its top-level
fields, or `snapshot.tokenConvictions.set(k, v)` through the Map it
references. -/
inductive SnapWrite where
  | setConfidence (v : ℚ)
  | setSuspicion (v : ℚ)
  | setConviction (v : ℚ)
  | setRegret (v : ℚ)
  | setRiskAppetite (v : ℚ)
  | setMode (m : OperationalMode)
  | convSet (k : String) (v : ℚ)
deriving Repr

/-- Apply one consumer write through the object at index `objId`. -/
def applyWrite (h : JsHeap) (objId : ℕ) : SnapWrite → JsHeap
  | .setConfidence v => { h with objects := updateAt h.objects objId (fun o => { o with confidence := v }) }
  | .setSuspicion v => { h with objects := updateAt h.objects objId (fun o => { o with suspicion := v }) }
  | .setConviction v => { h with objects := updateAt h.objects objId (fun o => { o with conviction := v }) }
  | .setRegret v => { h with objects := updateAt h.objects objId (fun o => { o with regret := v }) }
  | .setRiskAppetite v => { h with objects := updateAt h.objects objId (fun o => { o with riskAppetite := v }) }
  | .setMode m => { h with objects := updateAt h.objects objId (fun o => { o with mode := m }) }
  | .convSet k v =>
    match h.objects.get? objId with
    | some o => { h with maps := updateAt h.maps o.convRef (fun m => assocSet m k v) }
    | none => h

/-- Apply a sequence of consumer writes through the object at `objId`. -/
def applyWrites (h : JsHeap) (objId : ℕ) (ws : List SnapWrite) : JsHeap :=
  ws.foldl (fun h w => applyWrite h objId w) h

/-- An internal read of `this.state.tokenConvictions.get(k)` by the layer
owning the object at index `i`. -/
def readConviction (h : JsHeap) (i : ℕ) (k : String) : Option ℚ :=
  match h.objects.get? i with
  | some o =>
    match h.maps.get? o.convRef with
    | some m => assocGet m k
    | none => none
  | none => none

end SnapshotModel

/-! ## Concrete fixtures for the claim instances -/

/-- A representative risk configuration: position cap 10 %, daily-loss cap
5 %, exposure cap 80 %, no daily trade limit. -/
def rcfg0 : RiskConfig :=
  { maxPositionSizePct := 10, maxDailyLossPct := 5, maxTotalExposurePct := 80,
    minCapitalReserve := 0, dailyTradeLimit := none }

/-- A representative state configuration. -/
def scfg0 : StateConfig := { baseRiskAppetite := 0.5, moodUpdateIntervalMs := 60000 }

/-- A neutral intent state snapshot. -/
def snap0 : IntentStateSnapshot := { mood := Mood.neutral, confidence := 0.5, riskAppetite := 0.5 }

/-- Intent fixture builder. -/
def mkIntent (t : IntentType) (addr : Option String) (size : Option ℚ) : Intent :=
  { id := "i", timestamp := 0, type := t, tokenAddress := addr,
    tokenSymbol := addr, sizePct := size, primaryReason := "r",
    supportingSignals := [], stateSnapshot := snap0, alternatives := [],
    probabilityThreshold := 0.5 }

/-- Agent state put into SAFE_MODE by the operator control path
(`setSafeMode(true)` → `setMode(SAFE_MODE)`). -/
def stateC1 : AgentState :=
  StateLayer.setMode (StateLayer.initialState scfg0 0) OperationalMode.safe_mode 10

/-- A small in-limits ENTER intent. -/
def intentC1 : Intent := mkIntent .enter (some "TOK") (some 5)

/-- Simulator fixture: 0 % slippage, 100 capital. -/
def simCfg0 : SimulatorConfig := { initialCapital := 100, slippagePct := 0 }

/-- Fixed unit price for every token. -/
def pricesOne : String → ℚ := fun _ => 1

/-- Two consecutive ENTER intents on the same token: the second overwrites
the first position via `Map.set`. -/
def intentsC2 : List Intent :=
  [mkIntent .enter (some "T") (some 50), mkIntent .enter (some "T") (some 50)]

/-- A benign ENTER/ADD/REDUCE/EXIT sequence on one token. -/
def intentsC2w : List Intent :=
  [mkIntent .enter (some "T") (some 10), mkIntent .add (some "T") (some 10),
   mkIntent .reduce (some "T") (some 50), mkIntent .exit (some "T") none]

/-- Signal created at t = 0 with confidence 0.9 and half-life 100 ms. -/
def sigC3 : Signal :=
  { id := "s0", timestamp := 0, type := SignalType.volume_surge,
    tokenAddress := some "T", tokenSymbol := none, confidence := 0.9,
    strength := 0.5, urgency := 0.5, description := "", sourceEventIds := [],
    expiresAt := 300, decayRate := 0.5 }

/-- Signal layer holding `sigC3`, half-life 100 ms, `minConfidence` 0.01. -/
def layerC3 : SignalLayer :=
  { config := { windowSizeMs := 10000, decayHalfLifeMs := 100, minConfidence := 0.01 },
    activeSignals := [sigC3], eventWindow := [], signalIdCounter := 1 }

/-- A fully exposed open position (market value = the whole capital). -/
def posC4 : Position :=
  { tokenAddress := "TOK", tokenSymbol := "TOK", amount := 100,
    averageEntryPrice := 1, currentPrice := some 1, openedAt := 0,
    lastUpdatedAt := 0, entryIntentId := "e", tradeIds := [] }

/-- ENTER intent whose `sizePct` exceeds `maxPositionSizePct`. -/
def intentC4 : Intent := mkIntent .enter (some "T2") (some 15)

/-- Volume-spike event fixture. -/
def volEvent (id : String) (ts : ℤ) : Event :=
  { id := id, timestamp := ts, type := EventType.volume_spike,
    tokenAddress := some "T", tokenSymbol := some "T",
    data := { multiplier := some 3, changePercent := none } }

/-- Signal-layer fixture for the uniqueness trace: half-life 100 ms,
window 10 s. -/
def layerC5 : SignalLayer :=
  { config := { windowSizeMs := 10000, decayHalfLifeMs := 100, minConfidence := 0.1 },
    activeSignals := [], eventWindow := [], signalIdCounter := 0 }

/-- Layer after the first `processEvents` call at t = 0 (two qualifying
volume events for token T). -/
def layerC5a : SignalLayer :=
  (SignalLayer.processEvents layerC5 0 [volEvent "e1" 0, volEvent "e2" 0] []).2

/-- Layer after a second `processEvents` call at t = 400, past the first
signal's `expiresAt = 300`, with two fresh volume events. -/
def layerC5b : SignalLayer :=
  (SignalLayer.processEvents layerC5a 400 [volEvent "e3" 400, volEvent "e4" 400] []).2

/-- Decision engine fixture: 1 s cooldown, `minSignalConfidence` 0.5,
never yet decided (`lastIntentTime = 0`). -/
def engC6 : DecisionEngine :=
  { config := { intentCooldownMs := 1000, minSignalConfidence := 0.5,
                probabilisticThresholds := false },
    lastIntentTime := 0 }

/-- A high-confidence entry signal. -/
def sigC6 : Signal :=
  { id := "s1", timestamp := 0, type := SignalType.volume_surge,
    tokenAddress := some "T", tokenSymbol := some "T", confidence := 0.9,
    strength := 0.9, urgency := 0.8, description := "d", sourceEventIds := [],
    expiresAt := 100000, decayRate := 0.5 }

/-- Heap fixture: one agent-state object owning the `Map` at index 0. -/
def heapC7 : JsHeap :=
  { objects :=
      [{ timestamp := 0, confidence := 0.5, suspicion := 0.5, conviction := 0.5,
         fatigue := 0, aggression := 0.3, regret := 0, primaryMood := Mood.neutral,
         secondaryMood := none, riskAppetite := 0.5,
         mode := OperationalMode.observing, recentWinStreak := 0,
         recentLossStreak := 0, lastTradeTimestamp := none,
         daysSinceLastTrade := 0, convRef := 0, internalMonologue := none }]
    maps := [[]] }

/-- Loss-branch state fixture: confidence 0.15 (so the claim's 0-floor and
the code's 0.1-floor disagree). -/
def stateC8 : AgentState :=
  { StateLayer.initialState scfg0 0 with confidence := 0.15 }

/-- A failed trade. -/
def tradeC8 : TradeResult :=
  { id := "t", timestamp := 5, intentId := "i", tokenAddress := "T",
    tokenSymbol := "T", direction := TradeDirection.sell,
    status := TradeStatus.failed, requestedAmount := 1,
    triggeredBySignals := [], agentMoodAtTime := Mood.neutral }

/-- A filled trade with positive filled amount. -/
def tradeC8w : TradeResult :=
  { id := "t2", timestamp := 7, intentId := "i", tokenAddress := "T",
    tokenSymbol := "T", direction := TradeDirection.buy,
    status := TradeStatus.filled, requestedAmount := 1,
    filledAmount := some 1, triggeredBySignals := [], agentMoodAtTime := Mood.neutral }

/-- An always-throwing detector (models any detector raising a `TypeError`
while scanning the window). -/
def throwDetector : List Event → Except String (List DetectorResult) :=
  fun _ => Except.error "detector exploded"

/-- A detector returning no results. -/
def nullDetector : List Event → Except String (List DetectorResult) :=
  fun _ => Except.ok []

/-- The volume-surge detector, lifted. -/
def volDetector : List Event → Except String (List DetectorResult) :=
  fun evs => Except.ok (detectVolumeSurge evs 1000 0)

/-- The dormancy detector tracking token T, lifted. -/
def dormDetector : List Event → Except String (List DetectorResult) :=
  fun evs => Except.ok (detectDormancy evs ["T"] 1000 0)

/-- The DORMANCY result the dormancy detector produces on an empty
window. -/
def dormResult : DetectorResult :=
  { type := SignalType.dormancy, confidence := 0.7, strength := 0.5,
    urgency := 0.2, description := "No recent activity detected",
    tokenAddress := some "T", tokenSymbol := none, sourceEventIds := [] }

/-- A concrete trade for exercising the risk-op sequences. -/
def tradeC10 : TradeResult :=
  { id := "t3", timestamp := 1, intentId := "i", tokenAddress := "T",
    tokenSymbol := "T", direction := TradeDirection.buy,
    status := TradeStatus.filled, requestedAmount := 2,
    filledAmount := some 2, triggeredBySignals := [], agentMoodAtTime := Mood.neutral }

/-! ## Helper lemmas -/

/-- `config` is never changed by any public `RiskGuardrails` call. -/
theorem riskOps_config (rg : RiskGuardrails) (ops : List RiskOp) :
    (RiskOp.applyAll rg ops).config = rg.config := by
  induction ops generalizing rg with
  | nil => rfl
  | cons op rest ih =>
    cases op <;>
      simpa [RiskOp.applyAll, RiskOp.apply, RiskGuardrails.recordTrade,
        RiskGuardrails.resetDaily] using ih _

/-- `dailyPnL = 0` is invariant under every public `RiskGuardrails` call. -/
theorem riskOps_pnl (rg : RiskGuardrails) (ops : List RiskOp)
    (h : rg.dailyPnL = 0) : (RiskOp.applyAll rg ops).dailyPnL = 0 := by
  induction ops generalizing rg with
  | nil => exact h
  | cons op rest ih =>
    cases op <;>
      exact ih _ (by simp [RiskOp.apply, RiskGuardrails.recordTrade,
        RiskGuardrails.resetDaily, h])

/-- `updateAt` at one index leaves every other index unread. -/
theorem updateAt_getElem?_ne {α : Type} (l : List α) (i j : ℕ) (f : α → α)
    (hij : i ≠ j) : (SnapshotModel.updateAt l i f)[j]? = l[j]? := by
  unfold SnapshotModel.updateAt
  cases h : l.get? i with
  | none => rfl
  | some x => exact List.getElem?_set_ne hij

/-- A consumer write through object `objId` never changes any other
object. -/
theorem applyWrite_objects_ne (h : JsHeap) (objId i : ℕ) (w : SnapshotModel.SnapWrite)
    (hne : objId ≠ i) :
    ((SnapshotModel.applyWrite h objId w).objects[i]?) = h.objects[i]? := by
  cases w
  case convSet k v =>
    simp only [SnapshotModel.applyWrite]
    split <;> rfl
  all_goals
    simp [SnapshotModel.applyWrite, updateAt_getElem?_ne _ _ _ _ hne]

/-- A sequence of consumer writes through object `objId` never changes any
other object. -/
theorem applyWrites_objects_ne (h : JsHeap) (objId i : ℕ)
    (ws : List SnapshotModel.SnapWrite) (hne : objId ≠ i) :
    ((SnapshotModel.applyWrites h objId ws).objects[i]?) = h.objects[i]? := by
  induction ws generalizing h with
  | nil => rfl
  | cons w rest ih =>
    calc (SnapshotModel.applyWrites (SnapshotModel.applyWrite h objId w) objId rest).objects[i]?
        = (SnapshotModel.applyWrite h objId w).objects[i]? := ih _
      _ = h.objects[i]? := applyWrite_objects_ne h objId i w hne

/-! ## Claim C10 -/

/-- C10: starting from a freshly constructed `RiskGuardrails`, `dailyPnL`
stays 0 under every sequence of public calls (`recordTrade` only appends to
the ledger, `resetDaily` writes 0), so with `maxDailyLossPct > 0`
`shouldEnterSafeMode()` is always false and the loss-based safe-mode
rejection of `checkIntent` is unreachable through the public interface. -/
theorem c10_daily_pnl_identically_zero (cfg : RiskConfig) (ops : List RiskOp) :
    (RiskOp.applyAll (RiskGuardrails.mkFresh cfg) ops).dailyPnL = 0 ∧
    (0 < cfg.maxDailyLossPct →
      (RiskOp.applyAll (RiskGuardrails.mkFresh cfg) ops).shouldEnterSafeMode = false) := by
  have hpnl := riskOps_pnl (RiskGuardrails.mkFresh cfg) ops rfl
  refine ⟨hpnl, fun hpos => ?_⟩
  have hcfg := riskOps_config (RiskGuardrails.mkFresh cfg) ops
  simp only [RiskGuardrails.shouldEnterSafeMode]
  rw [hpnl, hcfg]
  simp only [RiskGuardrails.mkFresh, abs_zero, ge_iff_le, decide_eq_false_iff_not, not_le]
  exact hpos

/-- Witness for C10 at a concrete configuration and call sequence. -/
theorem c10_witness :
    (RiskOp.applyAll (RiskGuardrails.mkFresh rcfg0)
      [RiskOp.record tradeC10, RiskOp.reset, RiskOp.record tradeC10]).dailyPnL = 0 ∧
    (RiskOp.applyAll (RiskGuardrails.mkFresh rcfg0)
      [RiskOp.record tradeC10, RiskOp.reset, RiskOp.record tradeC10]).shouldEnterSafeMode = false := by
  have h := c10_daily_pnl_identically_zero rcfg0
    [RiskOp.record tradeC10, RiskOp.reset, RiskOp.record tradeC10]
  exact ⟨h.1, h.2 (by norm_num [rcfg0])⟩

/-! ## Claim C1 -/

/-- C1 (code bug): with the `StateLayer`'s mode set to SAFE_MODE through
the operator control path, `RiskGuardrails.checkIntent` still approves an
in-limits ENTER intent — the check never consults the operational mode, and
its own loss-based branch is dead because `dailyPnL` is never accumulated. -/
theorem c1_safe_mode_enter_still_approved :
    stateC1.mode = OperationalMode.safe_mode ∧
    ((RiskGuardrails.mkFresh rcfg0).checkIntent intentC1 [] 100).approved = true := by
  refine ⟨rfl, ?_⟩
  norm_num [RiskGuardrails.checkIntent, RiskGuardrails.mkFresh,
    RiskGuardrails.dailyLimitHit, RiskGuardrails.shouldEnterSafeMode,
    RiskGuardrails.calculateExposure, rcfg0, intentC1, mkIntent]

/-! ## Claim C3 -/

/-- C3 (code bug): `updateSignals` multiplies the stored confidence by the
factor recomputed from the creation timestamp, so repeated calls compound.
One call at `t0 + H` on a confidence-0.9, half-life-`H` signal yields 0.45
(as the spec states), but a second call in the same instant drops it to
0.225 instead of leaving 0.45 — the update is not idempotent. -/
theorem c3_decay_not_idempotent :
    ((SignalLayer.updateSignals powQ layerC3 100).1.map (fun s => s.confidence)) = [9/20] ∧
    (((SignalLayer.updateSignals powQ (SignalLayer.updateSignals powQ layerC3 100).2 100).1.map
        (fun s => s.confidence)) = [9/40]) ∧
    (9/40 : ℚ) ≠ 9/20 := by
  refine ⟨?_, ?_, by norm_num⟩ <;>
    norm_num [SignalLayer.updateSignals, SignalLayer.decayStep, layerC3, sigC3, powQ]

/-! ## Claim C9 -/

/-- C9 (code bug): `runAllDetectors` sequences the detectors with no
try/catch, so a throwing detector aborts the battery and the results of
the remaining detectors are lost, instead of equalling the run in which
the failing detector contributes no results; the third conjunct ties the
exception-typed battery to the source's pure `runAllDetectors`. -/
theorem c9_detector_failure_not_isolated :
    runDetectorBattery [volDetector, throwDetector, dormDetector] [] =
      Except.error "detector exploded" ∧
    runDetectorBattery [volDetector, nullDetector, dormDetector] [] =
      Except.ok [dormResult] ∧
    ∀ (evs : List Event) (tracked : List String) (w now : ℤ),
      runDetectorBattery (sourceBattery tracked w now) evs =
        Except.ok (runAllDetectors evs tracked w now) := by
  refine ⟨rfl, rfl, fun evs tracked w now => ?_⟩
  simp [runDetectorBattery, runDetectorBatteryFrom, sourceBattery,
    runAllDetectors, List.append_assoc]

/-! ## Claim C4 -/

/-- C4 (amended): for an ENTER intent whose requested size is nonzero and
within `maxPositionSizePct`, when the daily-limit and safe-mode gates pass
and current exposure is at least `maxTotalExposurePct`, `checkIntent`
rejects.  (For `sizePct > maxPositionSizePct` the clamp branch returns
approval before the exposure check is reached — see the counterexample.) -/
theorem c4_exposure_rejects_within_size_cap
    (rg : RiskGuardrails) (intent : Intent) (positions : List Position)
    (capital v : ℚ)
    (htype : intent.type = IntentType.enter)
    (hsize : intent.sizePct = some v) (hv0 : v ≠ 0)
    (hvmax : v ≤ rg.config.maxPositionSizePct)
    (hdl : rg.dailyLimitHit = false)
    (hsm : rg.shouldEnterSafeMode = false)
    (hexp : RiskGuardrails.calculateExposure positions capital ≥
      rg.config.maxTotalExposurePct) :
    (rg.checkIntent intent positions capital).approved = false := by
  simp [RiskGuardrails.checkIntent, htype, hsize, hv0, hdl, hsm,
    not_lt.mpr hvmax, hexp]

/-- Witness for C4: a fully exposed book rejects an in-cap ENTER. -/
theorem c4_exposure_witness :
    RiskGuardrails.calculateExposure [posC4] 100 ≥ rcfg0.maxTotalExposurePct ∧
    ((RiskGuardrails.mkFresh rcfg0).checkIntent
      (mkIntent .enter (some "T2") (some 5)) [posC4] 100).approved = false := by
  have hexp : RiskGuardrails.calculateExposure [posC4] 100 ≥ rcfg0.maxTotalExposurePct := by
    norm_num [RiskGuardrails.calculateExposure, posC4, rcfg0, priceOrAvg, numOr]
  refine ⟨hexp, ?_⟩
  exact c4_exposure_rejects_within_size_cap (RiskGuardrails.mkFresh rcfg0)
    (mkIntent .enter (some "T2") (some 5)) [posC4] 100 5 rfl rfl (by norm_num)
    (by norm_num [RiskGuardrails.mkFresh, rcfg0]) rfl
    (by norm_num [RiskGuardrails.shouldEnterSafeMode, RiskGuardrails.mkFresh, rcfg0])
    hexp

/-- Counterexample to C4 as stated: an over-cap ENTER (`sizePct = 15 >
maxPositionSizePct = 10`) is approved (clamped) although exposure is at
the cap — the clamp branch returns before the exposure check. -/
theorem c4_counterexample :
    RiskGuardrails.calculateExposure [posC4] 100 ≥ rcfg0.maxTotalExposurePct ∧
    intentC4.type = IntentType.enter ∧
    ((RiskGuardrails.mkFresh rcfg0).checkIntent intentC4 [posC4] 100).approved = true ∧
    ((RiskGuardrails.mkFresh rcfg0).checkIntent intentC4 [posC4] 100).adjustedSizePct =
      some 10 := by
  refine ⟨?_, rfl, ?_, ?_⟩
  · norm_num [RiskGuardrails.calculateExposure, posC4, rcfg0, priceOrAvg, numOr]
  all_goals
    norm_num [RiskGuardrails.checkIntent, RiskGuardrails.mkFresh,
      RiskGuardrails.dailyLimitHit, RiskGuardrails.shouldEnterSafeMode,
      RiskGuardrails.calculateExposure, rcfg0, intentC4, mkIntent, priceOrAvg, numOr]
  all_goals decide

/-! ## Claim C6 -/

/-- C6 (amended): when the cooldown has elapsed and at least one signal
passes `minSignalConfidence`, `decide` returns a non-null intent and resets
`lastIntentTime` to the current time.  (The early WAIT returned when no
signal passes the filter does not reset it — see the counterexample.) -/
theorem c6_cooldown_reset_on_decision
    (e : DecisionEngine) (now : ℤ) (signals : List Signal)
    (state : AgentState) (positions : List Position)
    (hcan : e.canDecide now = true)
    (hvalid : signals.filter
      (fun s => Decidable.decide (s.confidence ≥ e.config.minSignalConfidence)) ≠ []) :
    ((e.decide now signals state positions).2.lastIntentTime = now) ∧
    ((e.decide now signals state positions).1.isSome = true) := by
  rw [DecisionEngine.decide]
  simp only [hcan, not_true_eq_false, if_false, Bool.not_true]
  rw [if_neg (by simp [List.isEmpty_iff, hvalid])]
  constructor <;> rfl

/-- Witness for C6: a strong signal at t = 5000 resets the cooldown. -/
theorem c6_cooldown_witness :
    DecisionEngine.canDecide engC6 5000 = true ∧
    ((DecisionEngine.decide engC6 5000 [sigC6]
        (StateLayer.initialState scfg0 0) []).2.lastIntentTime = 5000) := by
  have hcan : DecisionEngine.canDecide engC6 5000 = true := by
    norm_num [DecisionEngine.canDecide, engC6]
  refine ⟨hcan, ?_⟩
  exact (c6_cooldown_reset_on_decision engC6 5000 [sigC6]
    (StateLayer.initialState scfg0 0) [] hcan
    (by norm_num [sigC6, engC6, List.filter])).1

/-- Counterexample to C6 as stated: with no signal passing the filter,
`decide` returns a WAIT intent but leaves `lastIntentTime` untouched, so
`canDecide` is still true immediately afterwards. -/
theorem c6_counterexample :
    ((DecisionEngine.decide engC6 5000 [] (StateLayer.initialState scfg0 0) []).1.isSome
       = true) ∧
    ((DecisionEngine.decide engC6 5000 [] (StateLayer.initialState scfg0 0) []).2.lastIntentTime
       ≠ 5000) ∧
    (DecisionEngine.canDecide
      (DecisionEngine.decide engC6 5000 [] (StateLayer.initialState scfg0 0) []).2 5000
       = true) := by
  refine ⟨?_, ?_, ?_⟩ <;>
    norm_num [DecisionEngine.decide, DecisionEngine.canDecide, engC6]

/-! ## Claim C8 -/

/-- C8 (amended): `updateFromTrade` applies the win nudges (+0.08
confidence capped at 0.95, −0.05 regret floored at 0, +0.06 conviction
capped at 0.95, +0.03 riskAppetite capped at 0.9) and the loss nudges
(−0.12 confidence floored at 0.1, +0.15 regret capped at 0.9, +0.1
suspicion capped at 0.9, −0.08 riskAppetite floored at 0.1), with the
associated streak resets and increments. -/
theorem c8_trade_update_caps (s : AgentState) (t : TradeResult) (now : ℤ) :
    ((t.status = TradeStatus.filled ∧ numOr t.filledAmount 0 > 0) →
      (StateLayer.updateFromTrade s t now).confidence = min 0.95 (s.confidence + 0.08) ∧
      (StateLayer.updateFromTrade s t now).regret = max 0 (s.regret - 0.05) ∧
      (StateLayer.updateFromTrade s t now).conviction = min 0.95 (s.conviction + 0.06) ∧
      (StateLayer.updateFromTrade s t now).riskAppetite = min 0.9 (s.riskAppetite + 0.03) ∧
      (StateLayer.updateFromTrade s t now).recentWinStreak = s.recentWinStreak + 1 ∧
      (StateLayer.updateFromTrade s t now).recentLossStreak = 0) ∧
    (¬(t.status = TradeStatus.filled ∧ numOr t.filledAmount 0 > 0) →
      (t.status = TradeStatus.failed ∨ strTruthy t.error) →
      (StateLayer.updateFromTrade s t now).confidence = max 0.1 (s.confidence - 0.12) ∧
      (StateLayer.updateFromTrade s t now).regret = min 0.9 (s.regret + 0.15) ∧
      (StateLayer.updateFromTrade s t now).suspicion = min 0.9 (s.suspicion + 0.1) ∧
      (StateLayer.updateFromTrade s t now).riskAppetite = max 0.1 (s.riskAppetite - 0.08) ∧
      (StateLayer.updateFromTrade s t now).recentLossStreak = s.recentLossStreak + 1 ∧
      (StateLayer.updateFromTrade s t now).recentWinStreak = 0) := by
  constructor
  · intro hwin
    simp [StateLayer.updateFromTrade, StateLayer.updateMood, hwin]
  · intro hnw hloss
    simp [StateLayer.updateFromTrade, StateLayer.updateMood, hnw, hloss]

/-- Witness for C8: the win branch at the neutral initial state. -/
theorem c8_trade_update_witness :
    (tradeC8w.status = TradeStatus.filled ∧ numOr tradeC8w.filledAmount 0 > 0) ∧
    (StateLayer.updateFromTrade (StateLayer.initialState scfg0 0) tradeC8w 9).confidence =
      min 0.95 ((StateLayer.initialState scfg0 0).confidence + 0.08) ∧
    (StateLayer.updateFromTrade (StateLayer.initialState scfg0 0) tradeC8w 9).recentWinStreak =
      (StateLayer.initialState scfg0 0).recentWinStreak + 1 := by
  have hwin : tradeC8w.status = TradeStatus.filled ∧ numOr tradeC8w.filledAmount 0 > 0 := by
    norm_num [tradeC8w, numOr]
  obtain ⟨h1, _, _, _, h5, _⟩ :=
    (c8_trade_update_caps (StateLayer.initialState scfg0 0) tradeC8w 9).1 hwin
  exact ⟨hwin, h1, h5⟩

/-- Counterexample to C8 as stated: on a failed trade from confidence
0.15, the code floors confidence at 0.1 while the claim's "floored at 0"
arithmetic demands 0.03; the regret/suspicion caps are likewise 0.9, not
0.95, and the win-side riskAppetite cap is 0.9. -/
theorem c8_counterexample :
    (StateLayer.updateFromTrade stateC8 tradeC8 6).confidence = 1/10 ∧
    (StateLayer.updateFromTrade stateC8 tradeC8 6).confidence ≠
      max 0 (stateC8.confidence - 0.12) := by
  constructor <;>
    norm_num [StateLayer.updateFromTrade, StateLayer.updateMood,
      StateLayer.sortDesc, StateLayer.insertDesc, stateC8,
      StateLayer.initialState, scfg0, tradeC8, numOr, strTruthy]

/-! ## Claim C7 -/

/-- C7 (amended): `getState()` hands out a freshly allocated shallow copy,
so no sequence of consumer writes through the snapshot changes the layer's
own object (its scalar fields and mode are isolated) — but the copy holds
the same `tokenConvictions` Map reference, not a copy of the Map. -/
theorem c7_snapshot_shallow_copy (h : JsHeap) (layerId : ℕ)
    (hlt : layerId < h.objects.length) (ws : List SnapshotModel.SnapWrite) :
    ((SnapshotModel.applyWrites (SnapshotModel.getState h layerId).1
        (SnapshotModel.getState h layerId).2 ws).objects[layerId]? =
      h.objects[layerId]?) ∧
    ((SnapshotModel.getState h layerId).1.objects[(SnapshotModel.getState h layerId).2]? =
      h.objects[layerId]?) := by
  have ho : h.objects.get? layerId = some h.objects[layerId] := by
    rw [List.get?_eq_getElem?]
    exact List.getElem?_eq_getElem hlt
  have hgs : SnapshotModel.getState h layerId =
      ({ h with objects := h.objects ++ [h.objects[layerId]] }, h.objects.length) := by
    simp only [SnapshotModel.getState, ho]
  have hne : h.objects.length ≠ layerId := by
    intro hEq
    rw [← hEq] at hlt
    exact lt_irrefl _ hlt
  constructor
  · rw [hgs]
    calc (SnapshotModel.applyWrites { h with objects := h.objects ++ [h.objects[layerId]] }
            h.objects.length ws).objects[layerId]?
        = ({ h with objects := h.objects ++ [h.objects[layerId]] } : JsHeap).objects[layerId]? :=
          applyWrites_objects_ne _ _ _ ws hne
      _ = (h.objects ++ [h.objects[layerId]])[layerId]? := rfl
      _ = h.objects[layerId]? := List.getElem?_append_left hlt
  · rw [hgs]
    show (h.objects ++ [h.objects[layerId]])[h.objects.length]? = h.objects[layerId]?
    rw [List.getElem?_concat_length, List.getElem?_eq_getElem hlt]

/-- Witness for C7 at the concrete heap: a scalar write and a Map write
through the snapshot leave the layer's own object untouched. -/
theorem c7_snapshot_witness :
    0 < heapC7.objects.length ∧
    ((SnapshotModel.applyWrites (SnapshotModel.getState heapC7 0).1
        (SnapshotModel.getState heapC7 0).2
        [SnapshotModel.SnapWrite.setConfidence 0.9,
         SnapshotModel.SnapWrite.convSet "tokenA" 0.9]).objects[0]? =
      heapC7.objects[0]?) := by
  refine ⟨by norm_num [heapC7], ?_⟩
  exact (c7_snapshot_shallow_copy heapC7 0 (by norm_num [heapC7])
    [SnapshotModel.SnapWrite.setConfidence 0.9,
     SnapshotModel.SnapWrite.convSet "tokenA" 0.9]).1

/-- Counterexample to C7 as stated: a consumer `set` on the snapshot's
`tokenConvictions` Map is visible to the layer's own subsequent read — the
spread copy shares the Map reference. -/
theorem c7_counterexample :
    SnapshotModel.readConviction heapC7 0 "tokenA" = none ∧
    SnapshotModel.readConviction
      (SnapshotModel.applyWrite (SnapshotModel.getState heapC7 0).1
        (SnapshotModel.getState heapC7 0).2
        (SnapshotModel.SnapWrite.convSet "tokenA" (9/10))) 0 "tokenA" =
      some (9/10) := by
  constructor <;>
    norm_num [SnapshotModel.readConviction, SnapshotModel.getState,
      SnapshotModel.applyWrite, SnapshotModel.updateAt, SnapshotModel.assocSet,
      SnapshotModel.assocGet, heapC7]

/-! ## Claim C5 : supporting lemmas -/

/-- Elements of `updateFirst p f l` are elements of `l` or the image under
`f` of a `p`-element of `l`. -/
theorem mem_updateFirst {p : Signal → Bool} {f : Signal → Signal}
    {l : List Signal} {y : Signal}
    (hy : y ∈ SignalLayer.updateFirst p f l) :
    y ∈ l ∨ ∃ x, x ∈ l ∧ p x = true ∧ y = f x := by
  induction l with
  | nil => simp [SignalLayer.updateFirst] at hy
  | cons a as ih =>
    rw [SignalLayer.updateFirst] at hy
    by_cases hpa : p a
    · rw [if_pos hpa] at hy
      rcases List.mem_cons.mp hy with hy | hy
      · exact Or.inr ⟨a, List.mem_cons_self _ _, hpa, hy⟩
      · exact Or.inl (List.mem_cons_of_mem _ hy)
    · rw [if_neg hpa] at hy
      rcases List.mem_cons.mp hy with hy | hy
      · exact Or.inl (hy ▸ List.mem_cons_self _ _)
      · rcases ih hy with h | ⟨x, hx, hpx, hyx⟩
        · exact Or.inl (List.mem_cons_of_mem _ h)
        · exact Or.inr ⟨x, List.mem_cons_of_mem _ hx, hpx, hyx⟩

/-- A signal matched by the reinforcement predicate is live. -/
theorem matchesLive_live {now : ℤ} {r : DetectorResult} {s : Signal}
    (h : SignalLayer.matchesLive now r s = true) : liveAt now s := by
  simp only [SignalLayer.matchesLive, decide_eq_true_eq] at h
  exact h.2.2

/-- A signal matched by the reinforcement predicate carries the result's
`(type, tokenAddress)` pair. -/
theorem matchesLive_pair {now : ℤ} {r : DetectorResult} {s : Signal}
    (h : SignalLayer.matchesLive now r s = true) :
    pairOf s = (r.type, r.tokenAddress) := by
  simp only [SignalLayer.matchesLive, decide_eq_true_eq] at h
  simp [pairOf, h.1, h.2.1]

/-- Reinforcement never changes a signal's `(type, tokenAddress)` pair. -/
theorem pairOf_reinforce (cfg : SignalConfig) (now : ℤ) (r : DetectorResult)
    (s : Signal) : pairOf (SignalLayer.reinforceMatch cfg now r s) = pairOf s := rfl

/-- In-place reinforcement of the first live match preserves live
uniqueness. -/
theorem liveUnique_updateFirst (cfg : SignalConfig) (now : ℤ) (r : DetectorResult)
    (l : List Signal) (h : LiveUnique now l) :
    LiveUnique now (SignalLayer.updateFirst (SignalLayer.matchesLive now r)
      (SignalLayer.reinforceMatch cfg now r) l) := by
  induction l with
  | nil => exact h
  | cons a as ih =>
    rw [SignalLayer.updateFirst]
    rcases List.pairwise_cons.mp h with ⟨ha, has⟩
    by_cases hpa : SignalLayer.matchesLive now r a
    · rw [if_pos hpa]
      refine List.pairwise_cons.mpr ⟨?_, has⟩
      intro b hb _ hlb
      rw [pairOf_reinforce]
      exact ha b hb (matchesLive_live hpa) hlb
    · rw [if_neg hpa]
      refine List.pairwise_cons.mpr ⟨?_, ih has⟩
      intro b hb hla hlb
      rcases mem_updateFirst hb with hmem | ⟨x, hx, hpx, hbx⟩
      · exact ha b hmem hla hlb
      · rw [hbx, pairOf_reinforce]
        exact ha x hx hla (matchesLive_live hpx)

/-- Appending a fresh signal for a result with no live match preserves live
uniqueness. -/
theorem liveUnique_append_new (cfg : SignalConfig) (now : ℤ) (c : ℕ)
    (r : DetectorResult) (l : List Signal) (h : LiveUnique now l)
    (hf : l.find? (SignalLayer.matchesLive now r) = none) :
    LiveUnique now (l ++ [SignalLayer.newSignalOf cfg now c r]) := by
  rw [LiveUnique, List.pairwise_append]
  refine ⟨h, List.pairwise_singleton _ _, ?_⟩
  intro a ha b hb hla hlb
  rw [List.mem_singleton] at hb
  subst hb
  intro hpair
  have hmatch : SignalLayer.matchesLive now r a = true := by
    have h1 : pairOf a = (r.type, r.tokenAddress) := hpair
    simp only [pairOf, Prod.mk.injEq] at h1
    simp only [SignalLayer.matchesLive, decide_eq_true_eq]
    exact ⟨h1.1, h1.2, hla⟩
  exact absurd hmatch (by simpa using List.find?_eq_none.mp hf a ha)

/-- The detector-result loop of `processEvents` preserves live
uniqueness of the active list. -/
theorem integrate_preserves (cfg : SignalConfig) (now : ℤ)
    (results : List DetectorResult) :
    ∀ (active : List Signal) (counter : ℕ), LiveUnique now active →
      LiveUnique now (SignalLayer.integrateResults cfg now active counter results).1 := by
  induction results with
  | nil => intro active counter h; exact h
  | cons r rest ih =>
    intro active counter h
    rw [SignalLayer.integrateResults]
    by_cases hconf : r.confidence < cfg.minConfidence
    · rw [if_pos hconf]
      exact ih _ _ h
    · rw [if_neg hconf]
      cases hf : active.find? (SignalLayer.matchesLive now r) with
      | some s =>
        exact ih _ _ (liveUnique_updateFirst cfg now r active h)
      | none =>
        simpa using ih _ _ (liveUnique_append_new cfg now counter r active h hf)

/-- The decay pass keeps a signal's pair, and a decayed signal that is
still unexpired was unexpired before the pass. -/
theorem decayStep_pair (powFn : ℚ → ℚ → ℚ) (cfg : SignalConfig) (now : ℤ)
    (s : Signal) :
    pairOf (SignalLayer.decayStep powFn cfg now s) = pairOf s := by
  simp only [SignalLayer.decayStep]
  split <;> rfl

/-- A signal still live after the decay pass was live before it. -/
theorem decayStep_live (powFn : ℚ → ℚ → ℚ) (cfg : SignalConfig) (now : ℤ)
    (s : Signal)
    (h : (SignalLayer.decayStep powFn cfg now s).expiresAt > now) :
    s.expiresAt > now := by
  simp only [SignalLayer.decayStep] at h
  split at h
  · simp at h
    omega
  · exact h

/-- C5 (amended): `processEvents` preserves "at most one live signal per
`(type, tokenAddress)` pair" (reinforcing the live match, creating only
when no live match exists), and after `updateSignals` the active list has
at most one signal per pair outright.  (After `processEvents` alone a
stale expired duplicate can coexist with a fresh signal of the same pair —
see the counterexample.) -/
theorem c5_signal_pair_uniqueness (powFn : ℚ → ℚ → ℚ) (layer : SignalLayer)
    (now : ℤ) (events : List Event) (tracked : List String)
    (h : LiveUnique now layer.activeSignals) :
    LiveUnique now (SignalLayer.processEvents layer now events tracked).2.activeSignals ∧
    (SignalLayer.updateSignals powFn layer now).1.Pairwise
      (fun a b => pairOf a ≠ pairOf b) := by
  constructor
  · simp only [SignalLayer.processEvents]
    exact integrate_preserves layer.config now _ layer.activeSignals
      layer.signalIdCounter h
  · have h1 : LiveUnique now (layer.activeSignals.filter
        (fun s => Decidable.decide (s.expiresAt > now))) :=
      List.Pairwise.sublist (List.filter_sublist _) h
    have h2 : LiveUnique now ((layer.activeSignals.filter
        (fun s => Decidable.decide (s.expiresAt > now))).map
          (SignalLayer.decayStep powFn layer.config now)) := by
      rw [LiveUnique, List.pairwise_map]
      refine h1.imp ?_
      intro a b hab hla hlb
      rw [decayStep_pair, decayStep_pair]
      exact hab (decayStep_live _ _ _ _ hla) (decayStep_live _ _ _ _ hlb)
    have h3 : LiveUnique now (((layer.activeSignals.filter
        (fun s => Decidable.decide (s.expiresAt > now))).map
          (SignalLayer.decayStep powFn layer.config now)).filter
        (fun s => Decidable.decide
          (s.expiresAt > now ∧ s.confidence ≥ layer.config.minConfidence))) :=
      List.Pairwise.sublist (List.filter_sublist _) h2
    simp only [SignalLayer.updateSignals]
    refine List.Pairwise.imp_of_mem ?_ h3
    intro a b ha hb hab
    have hqa := (List.mem_filter.mp ha).2
    have hqb := (List.mem_filter.mp hb).2
    simp only [decide_eq_true_eq] at hqa hqb
    exact hab hqa.1 hqb.1

/-- Witness for C5 at a concrete layer holding one live signal. -/
theorem c5_uniqueness_witness :
    LiveUnique 100 (SignalLayer.processEvents layerC3 100 [] []).2.activeSignals ∧
    (SignalLayer.updateSignals powQ layerC3 100).1.Pairwise
      (fun a b => pairOf a ≠ pairOf b) := by
  have h : LiveUnique 100 layerC3.activeSignals := List.pairwise_singleton _ _
  exact c5_signal_pair_uniqueness powQ layerC3 100 [] [] h

/-- Counterexample to C5 as stated: after the first signal expires
(`expiresAt = 300 < 400`) but before any `updateSignals` cleanup, a second
`processEvents` with fresh volume events creates a second VOLUME_SURGE
signal for the same token, so the active-signal list holds two signals
with the same `(type, tokenAddress)` pair. -/
theorem c5_counterexample :
    (layerC5b.activeSignals.map pairOf) =
      [(SignalType.volume_surge, some "T"), (SignalType.volume_surge, some "T")] ∧
    ¬ (layerC5b.activeSignals.map pairOf).Nodup := by
  have h : (layerC5b.activeSignals.map pairOf) =
      [(SignalType.volume_surge, some "T"), (SignalType.volume_surge, some "T")] := by
    norm_num +decide [layerC5b, layerC5a, layerC5, SignalLayer.processEvents,
      SignalLayer.integrateResults, SignalLayer.matchesLive,
      SignalLayer.reinforceMatch, SignalLayer.newSignalOf, SignalLayer.updateFirst,
      runAllDetectors, detectVolumeSurge, detectEarlyMomentum, detectLiquidityPull,
      detectPriceExhaustion, detectDormancy, detectHypeBurst, pushAssoc,
      sortByTs, insertByTs, volEvent, strOr, strTruthy, numOr, pairOf,
      List.find?, List.filter]
  refine ⟨h, ?_⟩
  rw [h]
  simp

/-! ## Claim C2 : supporting lemmas -/

namespace PaperTradingSimulator

/-- `sumVal` over a cons cell. -/
theorem sumVal_cons (e : String × Position) (rest : List (String × Position)) :
    sumVal (e :: rest) = e.2.amount * priceOrAvg e.2 + sumVal rest := by
  simp [sumVal]

/-- Appending a fresh key. -/
theorem sumVal_append (m : List (String × Position)) (k : String) (v : Position) :
    sumVal (m ++ [(k, v)]) = sumVal m + v.amount * priceOrAvg v := by
  simp [sumVal]

/-- A key the map does not hold fails the `any` membership test. -/
theorem any_eq_false_of_mapGet_none {m : List (String × Position)} {k : String}
    (h : mapGet m k = none) : m.any (fun e => e.1 = k) = false := by
  have hf : m.find? (fun e => decide (e.1 = k)) = none := by
    cases hf : m.find? (fun e => decide (e.1 = k)) with
    | none => rfl
    | some e => rw [mapGet, hf] at h; simp at h
  rw [List.any_eq_false]
  intro e he
  simpa using List.find?_eq_none.mp hf e he

/-- A found key yields an entry of the map and passes the `any` test. -/
theorem mapGet_mem {m : List (String × Position)} {k : String} {p : Position}
    (h : mapGet m k = some p) :
    (k, p) ∈ m ∧ m.any (fun e => e.1 = k) = true := by
  cases hf : m.find? (fun e => decide (e.1 = k)) with
  | none => rw [mapGet, hf] at h; simp at h
  | some e =>
    have he1 : e.1 = k := by simpa using List.find?_some hf
    have hmem := List.mem_of_find?_eq_some hf
    have he2 : e.2 = p := by
      rw [mapGet, hf] at h
      simpa using h
    constructor
    · have : e = (k, p) := by
        cases e
        simp_all
      exact this ▸ hmem
    · rw [List.any_eq_true]
      exact ⟨e, hmem, by simp [he1]⟩

/-- Replacing a key that every entry lacks is the identity. -/
theorem map_set_no_key (rest : List (String × Position)) (k : String) (v : Position)
    (hk : ∀ x ∈ rest, ¬ x.1 = k) :
    rest.map (fun e => if e.1 = k then (k, v) else e) = rest := by
  induction rest with
  | nil => rfl
  | cons a as ih =>
    rw [List.map_cons, if_neg (hk a (List.mem_cons_self _ _)),
      ih (fun x hx => hk x (List.mem_cons_of_mem _ hx))]

/-- Filtering out a key that every entry lacks is the identity. -/
theorem filter_no_key (rest : List (String × Position)) (k : String)
    (hk : ∀ x ∈ rest, ¬ x.1 = k) :
    rest.filter (fun e => Decidable.decide (e.1 ≠ k)) = rest := by
  induction rest with
  | nil => rfl
  | cons a as ih =>
    rw [List.filter_cons]
    rw [if_pos (by simpa using hk a (List.mem_cons_self _ _))]
    rw [ih (fun x hx => hk x (List.mem_cons_of_mem _ hx))]

/-- Value of the book after an in-place replacement of a held key. -/
theorem sumVal_set_found {m : List (String × Position)} {k : String}
    {p : Position} (v : Position)
    (hnd : (m.map Prod.fst).Nodup) (hget : mapGet m k = some p) :
    sumVal (mapSet m k v) =
      sumVal m - p.amount * priceOrAvg p + v.amount * priceOrAvg v := by
  induction m with
  | nil => rw [mapGet] at hget; simp at hget
  | cons e rest ih =>
    rw [List.map_cons, List.nodup_cons] at hnd
    obtain ⟨hke, hndr⟩ := hnd
    by_cases he : e.1 = k
    · have hp : e.2 = p := by
        rw [mapGet] at hget
        simpa [List.find?_cons, he] using hget
      have hrest : ∀ x ∈ rest, ¬ x.1 = k := by
        intro x hx hxk
        exact hke (by rw [he, ← hxk]; exact List.mem_map_of_mem Prod.fst hx)
      have hany : (e :: rest).any (fun x => x.1 = k) = true := by
        rw [List.any_cons]
        simp [he]
      rw [mapSet, if_pos hany, List.map_cons, if_pos he,
        map_set_no_key rest k v hrest]
      rw [sumVal_cons, sumVal_cons, hp]
      ring
    · have hget' : mapGet rest k = some p := by
        rw [mapGet] at hget ⊢
        simpa [List.find?_cons, he] using hget
      have hanyr := (mapGet_mem hget').2
      have hany : (e :: rest).any (fun x => x.1 = k) = true := by
        rw [List.any_cons, hanyr]
        simp
      have hmsr : rest.map (fun x => if x.1 = k then (k, v) else x) = mapSet rest k v := by
        rw [mapSet, if_pos hanyr]
      rw [mapSet, if_pos hany, List.map_cons, if_neg he, hmsr]
      rw [sumVal_cons, sumVal_cons, ih hndr hget']
      ring

/-- Value of the book after deleting a held key. -/
theorem sumVal_delete_found {m : List (String × Position)} {k : String}
    {p : Position}
    (hnd : (m.map Prod.fst).Nodup) (hget : mapGet m k = some p) :
    sumVal (mapDelete m k) = sumVal m - p.amount * priceOrAvg p := by
  induction m with
  | nil => rw [mapGet] at hget; simp at hget
  | cons e rest ih =>
    rw [List.map_cons, List.nodup_cons] at hnd
    obtain ⟨hke, hndr⟩ := hnd
    by_cases he : e.1 = k
    · have hp : e.2 = p := by
        rw [mapGet] at hget
        simpa [List.find?_cons, he] using hget
      have hrest : ∀ x ∈ rest, ¬ x.1 = k := by
        intro x hx hxk
        exact hke (by rw [he, ← hxk]; exact List.mem_map_of_mem Prod.fst hx)
      rw [mapDelete, List.filter_cons, if_neg (by simp [he]),
        filter_no_key rest k hrest]
      rw [sumVal_cons, hp]
      ring
    · have hget' : mapGet rest k = some p := by
        rw [mapGet] at hget ⊢
        simpa [List.find?_cons, he] using hget
      have hmdr : rest.filter (fun x => Decidable.decide (x.1 ≠ k)) = mapDelete rest k := rfl
      rw [mapDelete, List.filter_cons, if_pos (by simpa using he), hmdr]
      rw [sumVal_cons, ih hndr hget', sumVal_cons]
      ring

/-- Replacing a held key leaves the key list unchanged. -/
theorem keys_set_found (m : List (String × Position)) (k : String) (v : Position)
    (hany : m.any (fun e => e.1 = k) = true) :
    (mapSet m k v).map Prod.fst = m.map Prod.fst := by
  rw [mapSet, if_pos hany, List.map_map]
  apply List.map_congr_left
  intro x _
  by_cases h : x.1 = k <;> simp [h]

/-- Entries of a replacement map. -/
theorem mem_mapSet {m : List (String × Position)} {k : String} {v : Position}
    {x : String × Position} (hx : x ∈ mapSet m k v) :
    x = (k, v) ∨ x ∈ m := by
  rw [mapSet] at hx
  split at hx
  · rcases List.mem_map.mp hx with ⟨e, he, hfe⟩
    by_cases h : e.1 = k
    · left
      rw [← hfe, if_pos h]
    · right
      rw [← hfe, if_neg h]
      exact he
  · rcases List.mem_append.mp hx with h | h
    · right
      exact h
    · left
      simpa using h

/-- Entries of a deletion map. -/
theorem mem_mapDelete {m : List (String × Position)} {k : String}
    {x : String × Position} (hx : x ∈ mapDelete m k) : x ∈ m :=
  List.mem_of_mem_filter hx

/-- Key list of a deletion map is a sublist of the original keys. -/
theorem keys_delete_sublist (m : List (String × Position)) (k : String) :
    ((mapDelete m k).map Prod.fst).Sublist (m.map Prod.fst) :=
  List.Sublist.map Prod.fst (List.filter_sublist m)

/-- `priceOrAvg` of a position marked at a positive fixed price. -/
theorem priceOrAvg_of_marked {prices : String → ℚ} {k : String} {p : Position}
    (hp : p.currentPrice = some (prices k)) (hpos : 0 < prices k) :
    priceOrAvg p = prices k := by
  simp [priceOrAvg, numOr, hp, ne_of_gt hpos]

end PaperTradingSimulator

namespace PaperTradingSimulator

/-- `getTotalValue` through `sumVal`. -/
theorem getTotalValue_eq (st : SimState) :
    getTotalValue st = st.capital + sumVal st.positions := rfl

/-- `numOr (some a) a = a` (the two falsy fallbacks coincide). -/
theorem numOr_some_self (a : ℚ) : numOr (some a) a = a := by
  simp [numOr]

/-- A successful ENTER on a not-yet-open token conserves total value and
preserves the pricing invariant (slippage 0, positive prices). -/
theorem simulateEnter_ok (cfg : SimulatorConfig) (prices : String → ℚ)
    (now : ℤ) (st : SimState) (i : Intent) (st' : SimState)
    (hslip : cfg.slippagePct = 0) (hpos : ∀ t, 0 < prices t)
    (hinv : PriceInv prices st)
    (hg : strTruthy i.tokenAddress = true →
      mapGet st.positions (i.tokenAddress.getD "") = none)
    (hok : simulateEnter cfg prices now st i = Except.ok st') :
    getTotalValue st' = getTotalValue st ∧ PriceInv prices st' := by
  simp only [simulateEnter] at hok
  split_ifs at hok with hcond hic
  -- the two error branches are discharged inside split_ifs; one goal stays
  have hta : strTruthy i.tokenAddress = true := by
    by_contra h
    exact hcond (Or.inl (by simpa using h))
  have hmg := hg hta
  have hany := any_eq_false_of_mapGet_none hmg
  injection hok with hok
  subst hok
  set addr := i.tokenAddress.getD "" with haddr
  have hactual : prices addr * (1 + cfg.slippagePct / 100) = prices addr := by
    rw [hslip]
    ring
  have hne : prices addr ≠ 0 := ne_of_gt (hpos addr)
  have hset : mapSet st.positions addr
      { tokenAddress := addr
        tokenSymbol := i.tokenSymbol.getD ""
        amount := st.capital * (i.sizePct.getD 0 / 100) /
          (prices addr * (1 + cfg.slippagePct / 100))
        averageEntryPrice := prices addr * (1 + cfg.slippagePct / 100)
        currentPrice := some (prices addr * (1 + cfg.slippagePct / 100))
        unrealizedPnL := some 0
        unrealizedPnLPct := some 0
        openedAt := now
        lastUpdatedAt := now
        entryIntentId := i.id
        tradeIds := ["sim_trade_" ++ toString now] } =
      st.positions ++ [(addr,
        { tokenAddress := addr
          tokenSymbol := i.tokenSymbol.getD ""
          amount := st.capital * (i.sizePct.getD 0 / 100) /
            (prices addr * (1 + cfg.slippagePct / 100))
          averageEntryPrice := prices addr * (1 + cfg.slippagePct / 100)
          currentPrice := some (prices addr * (1 + cfg.slippagePct / 100))
          unrealizedPnL := some 0
          unrealizedPnLPct := some 0
          openedAt := now
          lastUpdatedAt := now
          entryIntentId := i.id
          tradeIds := ["sim_trade_" ++ toString now] })] := by
    rw [mapSet, if_neg (by simp [hany])]
  constructor
  · rw [getTotalValue_eq, getTotalValue_eq]
    simp only [hset]
    rw [sumVal_append]
    simp only [priceOrAvg, numOr_some_self]
    rw [hactual, div_mul_cancel₀ _ hne]
    ring
  · constructor
    · simp only [hset, List.map_append]
      rw [List.nodup_append]
      refine ⟨hinv.1, List.nodup_singleton _, ?_⟩
      intro a ha hb
      simp only [List.map_cons, List.map_nil, List.mem_singleton] at hb
      subst hb
      rcases List.mem_map.mp ha with ⟨e, he, hfe⟩
      have := (List.any_eq_false.mp hany) e he
      simp only [decide_eq_true_eq] at this
      exact this (by rw [hfe])
    · intro e he
      simp only [hset] at he
      rcases List.mem_append.mp he with h | h
      · exact hinv.2 e h
      · simp only [List.mem_singleton] at h
        subst h
        simp [hactual]

/-- A successful EXIT conserves total value and preserves the pricing
invariant (slippage 0, positive prices). -/
theorem simulateExit_ok (cfg : SimulatorConfig) (prices : String → ℚ)
    (now : ℤ) (st : SimState) (i : Intent) (st' : SimState)
    (hslip : cfg.slippagePct = 0) (hpos : ∀ t, 0 < prices t)
    (hinv : PriceInv prices st)
    (hok : simulateExit cfg prices now st i = Except.ok st') :
    getTotalValue st' = getTotalValue st ∧ PriceInv prices st' := by
  simp only [simulateExit] at hok
  split_ifs at hok with hcond
  set addr := i.tokenAddress.getD "" with haddr
  cases hmg : mapGet st.positions addr with
  | none => rw [hmg] at hok; simp at hok
  | some position =>
    rw [hmg] at hok
    injection hok with hok
    subst hok
    have hmem := (mapGet_mem hmg).1
    have hcp : position.currentPrice = some (prices addr) := hinv.2 _ hmem
    have hpa : priceOrAvg position = prices addr :=
      priceOrAvg_of_marked hcp (hpos addr)
    constructor
    · rw [getTotalValue_eq, getTotalValue_eq]
      rw [sumVal_delete_found hinv.1 hmg]
      rw [hslip, hpa]
      ring
    · constructor
      · exact List.Nodup.sublist (keys_delete_sublist st.positions addr) hinv.1
      · intro e he
        exact hinv.2 e (mem_mapDelete he)

/-- A successful ADD conserves total value and preserves the pricing
invariant (slippage 0, positive prices). -/
theorem simulateAdd_ok (cfg : SimulatorConfig) (prices : String → ℚ)
    (now : ℤ) (st : SimState) (i : Intent) (st' : SimState)
    (hslip : cfg.slippagePct = 0) (hpos : ∀ t, 0 < prices t)
    (hinv : PriceInv prices st)
    (hok : simulateAdd cfg prices now st i = Except.ok st') :
    getTotalValue st' = getTotalValue st ∧ PriceInv prices st' := by
  simp only [simulateAdd] at hok
  split_ifs at hok with hcond
  set addr := i.tokenAddress.getD "" with haddr
  cases hmg : mapGet st.positions addr with
  | none => rw [hmg] at hok; simp at hok
  | some position =>
    rw [hmg] at hok
    injection hok with hok
    subst hok
    have hmem := (mapGet_mem hmg).1
    have hcp : position.currentPrice = some (prices addr) := hinv.2 _ hmem
    have hpa : priceOrAvg position = prices addr :=
      priceOrAvg_of_marked hcp (hpos addr)
    have hne : prices addr ≠ 0 := ne_of_gt (hpos addr)
    have hpa' : priceOrAvg
        { position with
          averageEntryPrice :=
            (position.amount * position.averageEntryPrice +
              st.capital * (i.sizePct.getD 0 / 100)) /
            (position.amount + st.capital * (i.sizePct.getD 0 / 100) /
              (prices addr * (1 + cfg.slippagePct / 100)))
          amount := position.amount + st.capital * (i.sizePct.getD 0 / 100) /
            (prices addr * (1 + cfg.slippagePct / 100))
          lastUpdatedAt := now
          tradeIds := position.tradeIds ++ ["sim_trade_" ++ toString now] } =
        prices addr := by
      apply priceOrAvg_of_marked _ (hpos addr)
      simpa using hcp
    constructor
    · rw [getTotalValue_eq, getTotalValue_eq]
      rw [sumVal_set_found _ hinv.1 hmg]
      simp only [hpa, hpa']
      rw [hslip]
      field_simp
      ring
    · constructor
      · rw [keys_set_found _ _ _ (mapGet_mem hmg).2]
        exact hinv.1
      · intro e he
        rcases mem_mapSet he with h | h
        · subst h
          simpa using hcp
        · exact hinv.2 e h

/-- A successful REDUCE conserves total value and preserves the pricing
invariant (slippage 0, positive prices). -/
theorem simulateReduce_ok (cfg : SimulatorConfig) (prices : String → ℚ)
    (now : ℤ) (st : SimState) (i : Intent) (st' : SimState)
    (hslip : cfg.slippagePct = 0) (hpos : ∀ t, 0 < prices t)
    (hinv : PriceInv prices st)
    (hok : simulateReduce cfg prices now st i = Except.ok st') :
    getTotalValue st' = getTotalValue st ∧ PriceInv prices st' := by
  simp only [simulateReduce] at hok
  split_ifs at hok with hcond
  set addr := i.tokenAddress.getD "" with haddr
  cases hmg : mapGet st.positions addr with
  | none => rw [hmg] at hok; simp at hok
  | some position =>
    rw [hmg] at hok
    injection hok with hok
    subst hok
    have hmem := (mapGet_mem hmg).1
    have hcp : position.currentPrice = some (prices addr) := hinv.2 _ hmem
    have hpa : priceOrAvg position = prices addr :=
      priceOrAvg_of_marked hcp (hpos addr)
    have hpa' : priceOrAvg
        { position with
          amount := position.amount - position.amount * (i.sizePct.getD 0 / 100)
          lastUpdatedAt := now
          tradeIds := position.tradeIds ++ ["sim_trade_" ++ toString now] } =
        prices addr := by
      apply priceOrAvg_of_marked _ (hpos addr)
      simpa using hcp
    constructor
    · rw [getTotalValue_eq, getTotalValue_eq]
      rw [sumVal_set_found _ hinv.1 hmg]
      simp only [hpa, hpa']
      rw [hslip]
      ring
    · constructor
      · rw [keys_set_found _ _ _ (mapGet_mem hmg).2]
        exact hinv.1
      · intro e he
        rcases mem_mapSet he with h | h
        · subst h
          simpa using hcp
        · exact hinv.2 e h

end PaperTradingSimulator

/-- One `execute` call conserves total value and preserves the pricing
invariant: failures leave the state untouched, and every successful
operation trades capital for marked value (or back) at the same fixed
price. -/
theorem simStep_conserves (cfg : SimulatorConfig) (prices : String → ℚ)
    (now : ℤ) (st : SimState) (i : Intent)
    (hslip : cfg.slippagePct = 0) (hpos : ∀ t, 0 < prices t)
    (hinv : PaperTradingSimulator.PriceInv prices st)
    (hguard : i.type = IntentType.enter → strTruthy i.tokenAddress = true →
      PaperTradingSimulator.mapGet st.positions (i.tokenAddress.getD "") = none) :
    PaperTradingSimulator.getTotalValue
        (PaperTradingSimulator.simStep cfg prices now st i) =
      PaperTradingSimulator.getTotalValue st ∧
    PaperTradingSimulator.PriceInv prices
      (PaperTradingSimulator.simStep cfg prices now st i) := by
  cases hex : PaperTradingSimulator.execRun cfg prices now st i with
  | error e =>
    have hstep : PaperTradingSimulator.simStep cfg prices now st i = st := by
      simp [PaperTradingSimulator.simStep, hex]
    rw [hstep]
    exact ⟨rfl, hinv⟩
  | ok st' =>
    have hstep : PaperTradingSimulator.simStep cfg prices now st i = st' := by
      simp [PaperTradingSimulator.simStep, hex]
    rw [hstep]
    cases hty : i.type
    all_goals simp only [PaperTradingSimulator.execRun, hty] at hex
    case enter =>
      exact PaperTradingSimulator.simulateEnter_ok cfg prices now st i st'
        hslip hpos hinv (hguard hty) hex
    case exit =>
      exact PaperTradingSimulator.simulateExit_ok cfg prices now st i st'
        hslip hpos hinv hex
    case add =>
      exact PaperTradingSimulator.simulateAdd_ok cfg prices now st i st'
        hslip hpos hinv hex
    case reduce =>
      exact PaperTradingSimulator.simulateReduce_ok cfg prices now st i st'
        hslip hpos hinv hex
    all_goals
    · injection hex with hex
      subst hex
      exact ⟨rfl, hinv⟩

/-! ## Claim C2 -/

/-- C2 (amended): for any intent sequence with zero slippage, fixed
positive per-token prices, a well-marked book, and no ENTER targeting an
already-open token, `getTotalValue()` is the same before and after the
sequence.  (An ENTER on an open token overwrites the position and
destroys its value — see the counterexample.) -/
theorem c2_total_value_conserved (cfg : SimulatorConfig) (prices : String → ℚ)
    (now : ℤ) (st : SimState) (intents : List Intent)
    (hslip : cfg.slippagePct = 0) (hpos : ∀ t, 0 < prices t)
    (hinv : PaperTradingSimulator.PriceInv prices st)
    (hseq : PaperTradingSimulator.SeqOk cfg prices now st intents = true) :
    PaperTradingSimulator.getTotalValue
        (PaperTradingSimulator.runIntents cfg prices now st intents) =
      PaperTradingSimulator.getTotalValue st := by
  induction intents generalizing st with
  | nil => rfl
  | cons i rest ih =>
    rw [PaperTradingSimulator.SeqOk] at hseq
    obtain ⟨hg, hrest⟩ := Bool.and_eq_true_iff.mp hseq
    have hguard : i.type = IntentType.enter → strTruthy i.tokenAddress = true →
        PaperTradingSimulator.mapGet st.positions (i.tokenAddress.getD "") = none := by
      intro ht hs
      simp only [ht, hs, decide_True, Bool.not_true, Bool.false_or] at hg
      exact Option.isNone_iff_eq_none.mp hg
    obtain ⟨hcons, hinv'⟩ :=
      simStep_conserves cfg prices now st i hslip hpos hinv hguard
    have hrun : PaperTradingSimulator.runIntents cfg prices now st (i :: rest) =
        PaperTradingSimulator.runIntents cfg prices now
          (PaperTradingSimulator.simStep cfg prices now st i) rest := rfl
    rw [hrun, ih (PaperTradingSimulator.simStep cfg prices now st i) hinv' hrest,
      hcons]

/-- Witness for C2: a fresh 100-capital simulator running
ENTER/ADD/REDUCE/EXIT on one token at fixed unit price ends at the same
total value. -/
theorem c2_conservation_witness :
    PaperTradingSimulator.SeqOk simCfg0 pricesOne 0
      (PaperTradingSimulator.mkFresh simCfg0) intentsC2w = true ∧
    PaperTradingSimulator.getTotalValue
        (PaperTradingSimulator.runIntents simCfg0 pricesOne 0
          (PaperTradingSimulator.mkFresh simCfg0) intentsC2w) =
      PaperTradingSimulator.getTotalValue (PaperTradingSimulator.mkFresh simCfg0) := by
  have hseq : PaperTradingSimulator.SeqOk simCfg0 pricesOne 0
      (PaperTradingSimulator.mkFresh simCfg0) intentsC2w = true := by
    norm_num +decide [PaperTradingSimulator.SeqOk, PaperTradingSimulator.simStep,
      PaperTradingSimulator.execRun, PaperTradingSimulator.simulateEnter,
      PaperTradingSimulator.simulateAdd, PaperTradingSimulator.simulateReduce,
      PaperTradingSimulator.simulateExit, PaperTradingSimulator.mapGet,
      PaperTradingSimulator.mapSet, PaperTradingSimulator.mapDelete,
      PaperTradingSimulator.mkFresh, simCfg0, pricesOne, intentsC2w, mkIntent,
      strTruthy, numFalsy, List.find?]
  refine ⟨hseq, ?_⟩
  refine c2_total_value_conserved simCfg0 pricesOne 0 _ intentsC2w rfl
    (fun t => by norm_num [pricesOne]) ⟨by simp [PaperTradingSimulator.mkFresh], ?_⟩ hseq
  intro e he
  simp [PaperTradingSimulator.mkFresh] at he

/-- Counterexample to C2 as stated: two consecutive ENTERs on the same
token at fixed unit price and zero slippage drop `getTotalValue()` from
100 to 50 — the second ENTER overwrites the first position via `Map.set`,
destroying its value while the capital spent on it stays debited. -/
theorem c2_counterexample :
    PaperTradingSimulator.getTotalValue
        (PaperTradingSimulator.runIntents simCfg0 pricesOne 0
          (PaperTradingSimulator.mkFresh simCfg0) intentsC2) = 50 ∧
    PaperTradingSimulator.getTotalValue (PaperTradingSimulator.mkFresh simCfg0) = 100 ∧
    (50 : ℚ) ≠ 100 := by
  refine ⟨?_, ?_, by norm_num⟩
  · norm_num +decide [PaperTradingSimulator.runIntents, PaperTradingSimulator.simStep,
      PaperTradingSimulator.execRun, PaperTradingSimulator.simulateEnter,
      PaperTradingSimulator.mapGet, PaperTradingSimulator.mapSet,
      PaperTradingSimulator.mkFresh, PaperTradingSimulator.getTotalValue,
      simCfg0, pricesOne, intentsC2, mkIntent, strTruthy, numFalsy,
      priceOrAvg, numOr, List.find?]
  · norm_num [PaperTradingSimulator.getTotalValue, PaperTradingSimulator.mkFresh,
      simCfg0]
